import Mathlib

/-!
# Verification of the EXIF privacy-redaction engine

Shallow embedding of the repository's EXIF cleaner:
* `src/unnamed/part_002` — the debug-logging variant with the four-tier
  serialization fallback cascade (namespace `Part002`);
* `src/scripts/exif-cleaner.js` — the plain single-pass variant
  (namespace `Scripts`).

JavaScript dictionaries holding EXIF tag directories are modelled as
association lists `List (Nat × JsVal)`; tag values as the inductive `JsVal`
(`null`, strings, finite numbers, NaN, Infinity, arrays).  The external
`piexifjs` codec (`load` / `dump` / `insert` / `remove`) and the external
HEIC pixel decoder are modelled as oracle functions in `Codec` / `Env`:
`insert` and `remove` concretely embed or strip the EXIF document of a
data URL, while error outcomes (`piexif` raising) are oracle-controlled,
matching the spec's collaborator contract
`decode(bytes) → ExifDocument | DecodeError`,
`encode(doc, bytes) → bytes | EncodeError`, `strip(bytes) → bytes | StripError`.
External I/O that the source awaits but that cannot fail observably in the
claims (module loading, `FileReader`) is modelled as always succeeding.
-/

namespace ExifCleaner

/-- A JavaScript runtime value stored as an EXIF tag value.  `nan` stands for
`NaN`, `inf` for a non-finite (±Infinity) number; both are `typeof "number"`
and non-finite, but `NaN` is falsy while `Infinity` is truthy, so they are
kept apart. -/
inductive JsVal where
  | nullv : JsVal
  | str : String → JsVal
  | num : Int → JsVal
  | nan : JsVal
  | inf : JsVal
  | arr : List JsVal → JsVal

/-- JavaScript truthiness of a stored tag value. -/
def JsVal.truthy : JsVal → Bool
  | .nullv => false
  | .str s => !(s == "")
  | .num n => !(n == 0)
  | .nan => false
  | .inf => true
  | .arr _ => true

mutual
/-- String coercion used by JS template literals (`\x60Make: ${v}\x60`). -/
def JsVal.display : JsVal → String
  | .nullv => "null"
  | .str s => s
  | .num n => toString n
  | .nan => "NaN"
  | .inf => "Infinity"
  | .arr l => JsVal.displayList l

/-- JS `Array.prototype.toString`: elements joined with commas. -/
def JsVal.displayList : List JsVal → String
  | [] => ""
  | [v] => JsVal.display v
  | v :: w :: rest => JsVal.display v ++ "," ++ JsVal.displayList (w :: rest)
end

instance : Repr JsVal := ⟨fun v _ => Std.Format.text v.display⟩

/-- The per-element invalidity test of `cleanExifIfd`:
`v === undefined || v === null ||
 (typeof v === 'number' && (Number.isNaN(v) || !Number.isFinite(v)))`. -/
def JsVal.invalidElem : JsVal → Bool
  | .nullv => true
  | .nan => true
  | .inf => true
  | _ => false

/-- A tag directory (IFD): a JS dictionary from numeric tag ids to values,
modelled as an association list.  (JS iterates integer keys in ascending
numeric order; no proved property depends on entry order, only on lookups
and emptiness.) -/
abbrev IFD := List (Nat × JsVal)

/-- Dictionary read `ifd[tag]`; `none` models JS `undefined`. -/
def ifdLookup : IFD → Nat → Option JsVal
  | [], _ => none
  | (k, v) :: rest, t => if k = t then some v else ifdLookup rest t

/-- Dictionary delete `delete ifd[tag]`. -/
def ifdErase : IFD → Nat → IFD
  | [], _ => []
  | (k, v) :: rest, t => if k = t then ifdErase rest t else (k, v) :: ifdErase rest t

/-- Dictionary write `ifd[tag] = v` (replace in place, or append). -/
def ifdSet : IFD → Nat → JsVal → IFD
  | [], t, v => [(t, v)]
  | (k, w) :: rest, t, v => if k = t then (t, v) :: rest else (k, w) :: ifdSet rest t v

/-- `ifd[tag] = v` executed only when the read produced a defined value
(the `if (x !== undefined)` guards of the minimal-EXIF builder). -/
def setIfSome (ifd : IFD) (t : Nat) : Option JsVal → IFD
  | some v => ifdSet ifd t v
  | none => ifd

/-- `ifd[tag] = v` executed only when the read produced a truthy value
(the `if (dateTime)` guards of the minimal-EXIF builder). -/
def setIfTruthy (ifd : IFD) (t : Nat) : Option JsVal → IFD
  | some v => if v.truthy then ifdSet ifd t v else ifd
  | none => ifd

/-- The in-memory EXIF document produced by `piexif.load`: the five tag
groups `'0th'`, `'Exif'`, `'GPS'`, `'1st'`, `'Interop'` plus the
`'thumbnail'` entry (a JPEG byte string or null). -/
structure Exif where
  zeroth : IFD
  exifIfd : IFD
  gps : IFD
  first : IFD
  interop : IFD
  thumbnail : Option String
deriving Repr

-- piexifjs tag-id constants used by the source.
def tagMake : Nat := 0x010F
def tagModel : Nat := 0x0110
def tagSoftware : Nat := 0x0131
def tagHostComputer : Nat := 0x013C
def tagOrientation : Nat := 0x0112
def tagXResolution : Nat := 0x011A
def tagYResolution : Nat := 0x011B
def tagResolutionUnit : Nat := 0x0128
def tagYCbCrPositioning : Nat := 0x0213
def tagCopyright : Nat := 0x8298
def tagArtist : Nat := 0x013B
def tagDateTime : Nat := 0x0132
def tagMakerNote : Nat := 0x927C
def tagUserComment : Nat := 0x9286
def tagImageUniqueID : Nat := 0xA420
def tagCameraOwnerName : Nat := 0xA430
def tagBodySerialNumber : Nat := 0xA431
def tagLensSerialNumber : Nat := 0xA435
def tagLensMake : Nat := 0xA433
def tagLensModel : Nat := 0xA434
def tagDateTimeOriginal : Nat := 0x9003
def tagColorSpace : Nat := 0xA001
def tagPixelXDimension : Nat := 0xA002
def tagPixelYDimension : Nat := 0xA003
def tagOffsetTime : Nat := 36880
def tagOffsetTimeOriginal : Nat := 36881
def tagOffsetTimeDigitized : Nat := 36882
def tagXPComment : Nat := 0x9C9C
def tagXPAuthor : Nat := 0x9C9D

/-- The exported `PRIVACY_TAGS` reference object: privacy-bearing tags the
module documents as needing deletion. -/
def PRIVACY_TAGS : List (String × Nat) :=
  [("Make", tagMake), ("Model", tagModel), ("Software", tagSoftware),
   ("HostComputer", tagHostComputer),
   ("MakerNote", tagMakerNote), ("UserComment", tagUserComment),
   ("ImageUniqueID", tagImageUniqueID), ("CameraOwnerName", tagCameraOwnerName),
   ("BodySerialNumber", tagBodySerialNumber), ("LensSerialNumber", tagLensSerialNumber),
   ("LensMake", tagLensMake), ("LensModel", tagLensModel),
   ("XPAuthor", tagXPAuthor), ("XPComment", tagXPComment)]

/-- `formatExifDate`: keep a leading `YYYY:MM:DD` and zero the time of day;
return `null` when the value is falsy or the regex
`^(\d{4}):(\d{2}):(\d{2})` does not match. -/
def formatExifDate (dateStr : String) : Option String :=
  if dateStr = "" then none
  else
    match dateStr.data with
    | y1 :: y2 :: y3 :: y4 :: c1 :: m1 :: m2 :: c2 :: d1 :: d2 :: _ =>
      if y1.isDigit && y2.isDigit && y3.isDigit && y4.isDigit && c1 == ':' &&
         m1.isDigit && m2.isDigit && c2 == ':' && d1.isDigit && d2.isDigit then
        some (String.mk [y1, y2, y3, y4] ++ ":" ++ String.mk [m1, m2] ++ ":" ++
              String.mk [d1, d2] ++ " 00:00:00")
      else none
    | _ => none

/-- One data URL: the pixel/container payload plus the embedded EXIF segment
(`none` = no parseable tag directory, the codec's `DecodeError` case). -/
structure DataUrl where
  pixels : String
  exif : Option Exif
deriving Repr

/-- `piexif.insert(dump(e), d)`: replace the EXIF segment of `d` with `e`. -/
def embedExif (e : Exif) (d : DataUrl) : DataUrl := { pixels := d.pixels, exif := some e }

/-- `piexif.remove(d)`: strip the EXIF segment. -/
def stripExif (d : DataUrl) : DataUrl := { pixels := d.pixels, exif := none }

/-- Failure oracles for the external `piexifjs` codec: `some msg` means the
corresponding call raises with that message, `none` means it succeeds with
the canonical result (`embedExif` / `stripExif`). -/
structure Codec where
  dumpErr : Exif → Option String
  insertErr : Exif → DataUrl → Option String
  removeErr : DataUrl → Option String

/-- A browser `File`: name, MIME type, contents (as the data URL the source
reads via `FileReader`), and byte size. -/
structure JsFile where
  name : String
  type : String
  content : DataUrl
  size : Nat
deriving Repr

/-- ASCII case lowering of one character (the range `toLowerCase` affects in
the MIME types and file suffixes the format sniffing inspects). -/
def lowerChar (c : Char) : Char :=
  if 'A' ≤ c ∧ c ≤ 'Z' then Char.ofNat (c.toNat + 32) else c

/-- `s.toLowerCase()` over the string's character list. -/
def strToLower (s : String) : String := String.mk (s.data.map lowerChar)

/-- `s.endsWith(suffix)` over the strings' character lists. -/
def strEndsWith (s suffix : String) : Bool := suffix.data.isSuffixOf s.data

/-- `isJpegFormat`. -/
def isJpegFormat (f : JsFile) : Bool :=
  f.type == "image/jpeg" || f.type == "image/jpg"

/-- `isHeicFormat`. -/
def isHeicFormat (f : JsFile) : Bool :=
  let t := strToLower f.type
  let n := strToLower f.name
  t == "image/heic" || t == "image/heif" || strEndsWith n ".heic" || strEndsWith n ".heif"

/-- `isSupportedFormat`. -/
def isSupportedFormat (f : JsFile) : Bool :=
  isJpegFormat f || isHeicFormat f

/-- The filename rewrite `file.name.replace(/\.(heic|heif)$/i, '.jpg')`. -/
def replaceHeicExt (name : String) : String :=
  if (strEndsWith (strToLower name) ".heic" || strEndsWith (strToLower name) ".heif") then
    String.mk (name.data.take (name.data.length - 5)) ++ ".jpg"
  else name

/-- The external environment: the codec oracles, the HEIC→JPEG pixel
transcoder (`.error msg` = decode raised), today's date already formatted
as `YYYY:MM:DD`, and the byte size of a decoded data URL. -/
structure Env where
  codec : Codec
  heicConvert : JsFile → Except String DataUrl
  nowDateStr : String
  blobSize : DataUrl → Nat

/-- The result record built by `cleanupExifFromFile`. -/
structure CleanupResult where
  success : Bool
  file : Option JsFile
  originalSize : Nat
  cleanedSize : Nat
  error : Option String
  removedFields : List String
  addedFields : List String
  convertedFrom : Option String
deriving Repr

/-- Recognized cleanup options; unset fields fall back to the defaults. -/
structure CleanupOptions where
  copyright : Option String := none
  artist : Option String := none
  offsetTime : Option String := none
deriving DecidableEq, Repr

/-- Default attribution strings (`DEFAULT_COPYRIGHT_INFO`). -/
structure CopyrightInfo where
  copyright : String
  artist : String
deriving DecidableEq, Repr

/-- `DEFAULT_OFFSET_TIME`, identical in both source variants. -/
def DEFAULT_OFFSET_TIME : String := "+00:00"

/-- How one delete-if-present block reports its removal: either a fixed
string, or a literal followed by the deleted value's string coercion. -/
inductive EntryStyle where
  | withVal : String → EntryStyle
  | fixed : String → EntryStyle
deriving DecidableEq, Repr

/-- The report line pushed for a deleted value. -/
def entryText : EntryStyle → JsVal → String
  | .withVal p, v => p ++ v.display
  | .fixed s, _ => s

/-- The straight-line sequence of `if (ifd[tag] !== undefined) { push; delete }`
blocks, expressed as a fold over the `(tag, report-style)` pairs in exactly
the source's order. -/
def applyDeletes : IFD → List String → List (Nat × EntryStyle) → IFD × List String
  | ifd, rep, [] => (ifd, rep)
  | ifd, rep, (t, es) :: rest =>
    match ifdLookup ifd t with
    | some v => applyDeletes (ifdErase ifd t) (rep ++ [entryText es v]) rest
    | none => applyDeletes ifd rep rest

/-- The `'0th'` device-information deletions, in source order. -/
def ifd0DeleteSpec : List (Nat × EntryStyle) :=
  [(tagMake, .withVal "Make: "),
   (tagModel, .withVal "Model: "),
   (tagSoftware, .withVal "Software: "),
   (tagHostComputer, .withVal "HostComputer: ")]

/-- The `'Exif'` privacy deletions, in source order. -/
def exifDeleteSpec : List (Nat × EntryStyle) :=
  [(tagMakerNote, .fixed "MakerNote (Apple privacy data)"),
   (tagUserComment, .fixed "UserComment"),
   (tagImageUniqueID, .withVal "ImageUniqueID: "),
   (tagCameraOwnerName, .withVal "CameraOwnerName: "),
   (tagBodySerialNumber, .fixed "BodySerialNumber"),
   (tagLensMake, .withVal "LensMake: "),
   (tagLensModel, .withVal "LensModel: "),
   (tagLensSerialNumber, .fixed "LensSerialNumber")]

/-- The model of the `TypeError` raised when `.match` is called on a truthy
non-string tag value inside `formatExifDate` (engine message abstracted to a
fixed string). -/
def typeErrMsg : String := "dateStr.match is not a function"

/-- The state of the mutated dictionaries and the accumulated report after
steps 1-6 of the redaction (GPS wipe, deletions, thumbnail wipe, attribution
upsert, timestamp rewrite, offset normalization), before any serialization. -/
structure RedactMid where
  ifd0 : IFD
  exifIfd : IFD
  gps : IFD
  first : IFD
  interop : IFD
  thumbnail : Option String
  removed : List String
  added : List String
deriving Repr

/-- The date rewrite applied to `'Exif'.DateTimeOriginal`:
`if (v) { const c = formatExifDate(v); if (c) write c & report }`.
Throws (as the source does, to the outer catch) when the truthy value is not
a string. -/
def dtoStep (exifA : IFD) (add : List String) :
    Except String (IFD × List String) :=
  match ifdLookup exifA tagDateTimeOriginal with
  | some v =>
    if v.truthy then
      match v with
      | .str s =>
        match formatExifDate s with
        | some c => .ok (ifdSet exifA tagDateTimeOriginal (.str c),
                         add ++ ["DateTimeOriginal: " ++ c])
        | none => .ok (exifA, add)
      | _ => .error typeErrMsg
    else .ok (exifA, add)
  | none => .ok (exifA, add)

/-- The date rewrite applied to `'0th'.DateTime` (no report line). -/
def dtStep (ifd0b : IFD) : Except String IFD :=
  match ifdLookup ifd0b tagDateTime with
  | some v =>
    if v.truthy then
      match v with
      | .str s =>
        match formatExifDate s with
        | some c => .ok (ifdSet ifd0b tagDateTime (.str c))
        | none => .ok ifd0b
      | _ => .error typeErrMsg
    else .ok ifd0b
  | none => .ok ifd0b

/-- Steps 1-6 of the redaction transform, shared verbatim (modulo console
logging) by both source variants.  On a thrown `TypeError` the error value
carries the report accumulated so far plus the message, since the outer
catch of the pipeline returns that partial report. -/
def redactCore (e : Exif) (copyright artist offsetTime : String) :
    Except (List String × List String × String) RedactMid :=
  -- 1. GPS block wipe
  let gps1 : IFD := if e.gps.isEmpty then e.gps else []
  let rem1 : List String := if e.gps.isEmpty then [] else ["GPS (entire block)"]
  -- 2. '0th' device deletions
  let del0 := applyDeletes e.zeroth rem1 ifd0DeleteSpec
  -- 3. 'Exif' privacy deletions
  let delE := applyDeletes e.exifIfd del0.2 exifDeleteSpec
  -- 4. thumbnail wipe
  let first1 : IFD := if e.first.isEmpty then e.first else []
  let rem4 : List String := if e.first.isEmpty then delE.2 else delE.2 ++ ["Thumbnail"]
  let thumb1 : Option String :=
    match e.thumbnail with
    | some s => if s = "" then some s else none
    | none => none
  -- 5. attribution upsert
  let ifd0b := ifdSet (ifdSet del0.1 tagCopyright (.str copyright)) tagArtist (.str artist)
  let add1 := ["Copyright: " ++ copyright, "Artist: " ++ artist]
  -- 6. timestamps and offsets
  match dtoStep delE.1 add1 with
  | .error msg => .error (rem4, add1, msg)
  | .ok out =>
    let exifC := ifdSet (ifdSet (ifdSet out.1 tagOffsetTimeOriginal (.str offsetTime))
                  tagOffsetTimeDigitized (.str offsetTime)) tagOffsetTime (.str offsetTime)
    let add3 := out.2 ++ ["OffsetTimeOriginal: " ++ offsetTime]
    match dtStep ifd0b with
    | .error msg => .error (rem4, add3, msg)
    | .ok ifd0c =>
      .ok { ifd0 := ifd0c, exifIfd := exifC, gps := gps1, first := first1,
            interop := e.interop, thumbnail := thumb1,
            removed := rem4, added := add3 }

/-- The encoder-validity test of the non-preserved branch of `cleanExifIfd`:
false for null, non-finite numbers, empty arrays, and arrays containing an
invalid element. -/
def validVal : JsVal → Bool
  | .nullv => false
  | .nan => false
  | .inf => false
  | .arr [] => false
  | .arr es => !(es.any JsVal.invalidElem)
  | _ => true

/-- Whether `cleanExifIfd` keeps the entry `(t, v)` under `preserveKeys`:
preserve-listed keys are copied whenever defined and non-null; all other
keys only when their value passes the validity test. -/
def cleanKeeps (preserveKeys : List Nat) (t : Nat) (v : JsVal) : Bool :=
  if t ∈ preserveKeys then
    match v with
    | .nullv => false
    | _ => true
  else validVal v

/-- `cleanExifIfd(ifd, preserveKeys)`: drop entries whose value the binary
encoder would reject, force-keeping the preserve-listed tags unless their
value is null/undefined. -/
def cleanExifIfd (ifd : IFD) (preserveKeys : List Nat) : IFD :=
  ifd.filterMap fun kv =>
    if cleanKeeps preserveKeys kv.1 kv.2 then some kv else none

/-- The `'0th'` preserve-critical allow-list (`ifd0PreserveKeys`). -/
def ifd0PreserveKeys : List Nat :=
  [tagOrientation, tagXResolution, tagYResolution, tagResolutionUnit, tagYCbCrPositioning]

/-- The `'Exif'` preserve-critical allow-list (`exifPreserveKeys`). -/
def exifPreserveKeys : List Nat :=
  [tagColorSpace, tagPixelXDimension, tagPixelYDimension]

/-- The orientation re-injection guard
`if (originalOrientation !== undefined && originalOrientation !== null)`. -/
def restoreOrientation (z : IFD) : Option JsVal → IFD
  | some v => match v with
    | .nullv => z
    | _ => ifdSet z tagOrientation v
  | none => z

/-- Tier 1: the fully redacted document after `cleanExifIfd` on every group
and re-injection of the cached original orientation. -/
def tier1Doc (m : RedactMid) (origOrientation : Option JsVal) : Exif :=
  { zeroth := restoreOrientation (cleanExifIfd m.ifd0 ifd0PreserveKeys) origOrientation,
    exifIfd := cleanExifIfd m.exifIfd exifPreserveKeys,
    gps := cleanExifIfd m.gps [],
    first := cleanExifIfd m.first [],
    interop := cleanExifIfd m.interop [],
    thumbnail := m.thumbnail }

/-- Tier 2: the hand-built minimal document (`minimalExif`), reading the
display-critical values from the mutated (pre-`cleanExifIfd`) dictionaries. -/
def tier2Doc (m : RedactMid) (copyright artist offsetTime : String) : Exif :=
  let z0 := setIfSome [] tagOrientation (ifdLookup m.ifd0 tagOrientation)
  let z1 := setIfSome z0 tagXResolution (ifdLookup m.ifd0 tagXResolution)
  let z2 := setIfSome z1 tagYResolution (ifdLookup m.ifd0 tagYResolution)
  let z3 := setIfSome z2 tagResolutionUnit (ifdLookup m.ifd0 tagResolutionUnit)
  let z4 := setIfSome z3 tagYCbCrPositioning (ifdLookup m.ifd0 tagYCbCrPositioning)
  let z5 := ifdSet (ifdSet z4 tagCopyright (.str copyright)) tagArtist (.str artist)
  let z6 := setIfTruthy z5 tagDateTime (ifdLookup m.ifd0 tagDateTime)
  let x0 := setIfSome [] tagColorSpace (ifdLookup m.exifIfd tagColorSpace)
  let x1 := setIfSome x0 tagPixelXDimension (ifdLookup m.exifIfd tagPixelXDimension)
  let x2 := setIfSome x1 tagPixelYDimension (ifdLookup m.exifIfd tagPixelYDimension)
  let x3 := setIfTruthy x2 tagDateTimeOriginal (ifdLookup m.exifIfd tagDateTimeOriginal)
  let x4 := ifdSet (ifdSet (ifdSet x3 tagOffsetTimeOriginal (.str offsetTime))
             tagOffsetTimeDigitized (.str offsetTime)) tagOffsetTime (.str offsetTime)
  { zeroth := z6, exifIfd := x4, gps := [], first := [], interop := [], thumbnail := none }

/-- Tier 3: the safe rebuilt document (`safeExif`): copyright, artist, and
the cached original orientation when defined and non-null. -/
def tier3Doc (origOrientation : Option JsVal) (copyright artist : String) : Exif :=
  { zeroth := restoreOrientation
      (ifdSet (ifdSet [] tagCopyright (.str copyright)) tagArtist (.str artist))
      origOrientation,
    exifIfd := [], gps := [], first := [], interop := [], thumbnail := none }

/-- One `piexif.dump` + `piexif.insert` attempt inside a tier's try block:
fails (with the raised message) when either codec call raises. -/
def tryDumpInsert (c : Codec) (doc : Exif) (target : DataUrl) : Except String DataUrl :=
  match c.dumpErr doc with
  | some m => .error m
  | none =>
    match c.insertErr doc target with
    | some m => .error m
    | none => .ok (embedExif doc target)

/-- Outcome of the four-tier fallback cascade: either a new data URL plus
the tier's extra report lines, or exhaustion carrying the tier-1 error
message (the source's `dumpError`). -/
inductive CascadeOut where
  | ok : DataUrl → List String → CascadeOut
  | exhausted : String → CascadeOut
deriving Repr

/-- The nested try/catch serialization-fallback cascade of `part_002`:
tier 1 full dump, tier 2 minimal document, tier 3 strip-and-rebuild,
tier 4 bare strip; the first tier that does not raise wins. -/
def fallbackEncode (c : Codec) (dataUrl : DataUrl) (t1 t2 t3 : Exif) : CascadeOut :=
  match tryDumpInsert c t1 dataUrl with
  | .ok d => .ok d []
  | .error m1 =>
    match tryDumpInsert c t2 dataUrl with
    | .ok d => .ok d ["Some EXIF tags could not be preserved (display-related tags kept)"]
    | .error _ =>
      let tier3 : Except String DataUrl :=
        match c.removeErr dataUrl with
        | some m => .error m
        | none => tryDumpInsert c t3 (stripExif dataUrl)
      match tier3 with
      | .ok d => .ok d
          ["All EXIF stripped and rebuilt with minimal safe values (Orientation preserved)"]
      | .error _ =>
        match c.removeErr dataUrl with
        | some _ => .exhausted m1
        | none => .ok (stripExif dataUrl) ["All EXIF completely stripped (no new EXIF added)"]

/-- The fresh EXIF document built on the HEIC path (identical in both
variants): copyright, artist, today's date at `00:00:00` in both
`DateTimeOriginal` and `DateTime`, and the three offset-time tags. -/
def heicFreshDoc (copyright artist offsetTime dateStr : String) : Exif :=
  let z := ifdSet (ifdSet [] tagCopyright (.str copyright)) tagArtist (.str artist)
  let z2 := ifdSet z tagDateTime (.str dateStr)
  let x := ifdSet [] tagDateTimeOriginal (.str dateStr)
  let x1 := ifdSet (ifdSet (ifdSet x tagOffsetTimeOriginal (.str offsetTime))
             tagOffsetTimeDigitized (.str offsetTime)) tagOffsetTime (.str offsetTime)
  { zeroth := z2, exifIfd := x1, gps := [], first := [], interop := [], thumbnail := none }

/-- The report lines pushed on the HEIC path before `piexif.dump`. -/
def heicAddedLines (copyright artist offsetTime dateStr : String) : List String :=
  ["Copyright: " ++ copyright, "Artist: " ++ artist,
   "DateTimeOriginal: " ++ dateStr, "OffsetTimeOriginal: " ++ offsetTime]

/-- The HEIC/HEIF branch, shared by both variants: convert pixels to JPEG,
then write a fresh minimal EXIF document.  Any raise (pixel decode, dump,
insert) falls to the outer catch, which returns the original file with the
already-pushed report lines and `success=false`. -/
def heicBranch (env : Env) (file : JsFile) (base : CleanupResult)
    (copyright artist offsetTime : String) : CleanupResult :=
  let removed0 := ["HEIC/HEIF converted to JPEG (all original metadata removed)"]
  match env.heicConvert file with
  | .error msg =>
    { base with
      removedFields := removed0
      error := some msg
      file := some file
      cleanedSize := file.size }
  | .ok durl =>
    let dateStr := env.nowDateStr ++ " 00:00:00"
    let doc := heicFreshDoc copyright artist offsetTime dateStr
    let added := heicAddedLines copyright artist offsetTime dateStr
    match tryDumpInsert env.codec doc durl with
    | .error msg =>
      { base with
        removedFields := removed0
        addedFields := added
        error := some msg
        file := some file
        cleanedSize := file.size }
    | .ok newUrl =>
      let sz := env.blobSize newUrl
      { base with
        success := true
        file := some { name := replaceHeicExt file.name, type := "image/jpeg", content := newUrl, size := sz }
        cleanedSize := sz
        removedFields := removed0
        addedFields := added
        convertedFrom := some "HEIC/HEIF" }

/-- The empty result record initialized at the top of `cleanupExifFromFile`. -/
def baseResult (file : JsFile) : CleanupResult :=
  { success := false, file := none, originalSize := file.size, cleanedSize := 0,
    error := none, removedFields := [], addedFields := [], convertedFrom := none }

namespace Part002

/-- `DEFAULT_COPYRIGHT_INFO` of `src/unnamed/part_002`. -/
def DEFAULT_COPYRIGHT_INFO : CopyrightInfo :=
  { copyright := "Copyright (c) jixiaoyong. All Rights Reserved. jixiaoyong.github.io",
    artist := "jixiaoyong (jixiaoyong.github.io)" }

/-- `cleanupExifFromFile` of `src/unnamed/part_002`: the debug-logging
variant with orientation caching and the four-tier fallback cascade.
The original orientation is cached with a single dictionary read (the
source's constant/number/string triple read hits the same key). -/
def cleanupExifFromFile (env : Env) (file : JsFile) (opts : CleanupOptions) :
    CleanupResult :=
  let copyright := opts.copyright.getD DEFAULT_COPYRIGHT_INFO.copyright
  let artist := opts.artist.getD DEFAULT_COPYRIGHT_INFO.artist
  let offsetTime := opts.offsetTime.getD DEFAULT_OFFSET_TIME
  let base := baseResult file
  if isHeicFormat file then
    heicBranch env file base copyright artist offsetTime
  else if !(isJpegFormat file) then
    { base with
      success := true
      file := some file
      cleanedSize := file.size
      error := some "不支持的格式，跳过 EXIF 处理" }
  else
    let dataUrl := file.content
    match dataUrl.exif with
    | none =>
      { base with
        success := true
        file := some file
        cleanedSize := file.size
        error := some "无法解析 EXIF 数据，返回原文件" }
    | some e =>
      let origOrientation := ifdLookup e.zeroth tagOrientation
      match redactCore e copyright artist offsetTime with
      | .error (rem, add, msg) =>
        { base with
          removedFields := rem
          addedFields := add
          error := some msg
          file := some file
          cleanedSize := file.size }
      | .ok m =>
        let t1 := tier1Doc m origOrientation
        let t2 := tier2Doc m copyright artist offsetTime
        let t3 := tier3Doc origOrientation copyright artist
        match fallbackEncode env.codec dataUrl t1 t2 t3 with
        | .exhausted m1 =>
          { base with
            success := true
            file := some file
            cleanedSize := file.size
            removedFields := m.removed
            addedFields := m.added
            error := some ("EXIF 处理异常，返回原文件: " ++ m1) }
        | .ok newUrl extra =>
          let sz := env.blobSize newUrl
          { base with
            success := true
            file := some { name := file.name, type := file.type, content := newUrl, size := sz }
            cleanedSize := sz
            removedFields := m.removed ++ extra
            addedFields := m.added }

/-- One progress-callback invocation of `cleanupExifBatch`: the 1-based
index, the total count, and the file about to be processed. -/
structure ProgressCall where
  current : Nat
  total : Nat
  item : JsFile
deriving Repr

/-- The aggregate record returned by `cleanupExifBatch`. -/
structure BatchResult where
  results : List CleanupResult
  success : Nat
  failed : Nat
  totalOriginalSize : Nat
  totalCleanedSize : Nat
deriving Repr

/-- The sequential loop of `cleanupExifBatch`, also recording the ordered
trace of progress-callback invocations (each fired before its file is
processed). -/
def cleanupExifBatchAux (env : Env) (opts : CleanupOptions) (total : Nat) :
    Nat → List JsFile → BatchResult × List ProgressCall
  | _, [] =>
    ({ results := [], success := 0, failed := 0,
       totalOriginalSize := 0, totalCleanedSize := 0 }, [])
  | i, f :: rest =>
    let r := cleanupExifFromFile env f opts
    let (b, calls) := cleanupExifBatchAux env opts total (i + 1) rest
    ({ results := r :: b.results,
       success := (if r.success then 1 else 0) + b.success,
       failed := (if r.success then 0 else 1) + b.failed,
       totalOriginalSize := r.originalSize + b.totalOriginalSize,
       totalCleanedSize := r.cleanedSize + b.totalCleanedSize },
     { current := i + 1, total := total, item := f } :: calls)

/-- `cleanupExifBatch`: strictly sequential batch over the input order. -/
def cleanupExifBatch (env : Env) (files : List JsFile) (opts : CleanupOptions) :
    BatchResult × List ProgressCall :=
  cleanupExifBatchAux env opts files.length 0 files

end Part002

/-- The expected sequence of progress-callback invocations for a batch
started at 0-based position `i`: 1-based indices, fixed total. -/
def progressTrace (total : Nat) : Nat → List JsFile → List Part002.ProgressCall
  | _, [] => []
  | i, f :: rest => { current := i + 1, total := total, item := f } ::
      progressTrace total (i + 1) rest

namespace Scripts

/-- `DEFAULT_COPYRIGHT_INFO` of `src/scripts/exif-cleaner.js` — note the
copyright string differs from the `part_002` default. -/
def DEFAULT_COPYRIGHT_INFO : CopyrightInfo :=
  { copyright := "© jixiaoyong. All Rights Reserved. jixiaoyong.github.io / 版权所有 jixiaoyong，保留所有权利。",
    artist := "jixiaoyong (jixiaoyong.github.io)" }

/-- The document written back by the single-pass variant: the mutated
dictionaries of steps 1-6 with no `cleanExifIfd`, no orientation restore
and no fallback tiers. -/
def singlePassDoc (m : RedactMid) : Exif :=
  { zeroth := m.ifd0, exifIfd := m.exifIfd, gps := m.gps, first := m.first,
    interop := m.interop, thumbnail := m.thumbnail }

/-- `cleanupExifFromFile` of `src/scripts/exif-cleaner.js`: the plain
single-pass variant; a raise in `piexif.dump`/`piexif.insert` falls through
to the outer catch (`success=false`, original file returned). -/
def cleanupExifFromFile (env : Env) (file : JsFile) (opts : CleanupOptions) :
    CleanupResult :=
  let copyright := opts.copyright.getD DEFAULT_COPYRIGHT_INFO.copyright
  let artist := opts.artist.getD DEFAULT_COPYRIGHT_INFO.artist
  let offsetTime := opts.offsetTime.getD DEFAULT_OFFSET_TIME
  let base := baseResult file
  if isHeicFormat file then
    heicBranch env file base copyright artist offsetTime
  else if !(isJpegFormat file) then
    { base with
      success := true
      file := some file
      cleanedSize := file.size
      error := some "不支持的格式，跳过 EXIF 处理" }
  else
    let dataUrl := file.content
    match dataUrl.exif with
    | none =>
      { base with
        success := true
        file := some file
        cleanedSize := file.size
        error := some "无法解析 EXIF 数据，返回原文件" }
    | some e =>
      match redactCore e copyright artist offsetTime with
      | .error (rem, add, msg) =>
        { base with
          removedFields := rem
          addedFields := add
          error := some msg
          file := some file
          cleanedSize := file.size }
      | .ok m =>
        match tryDumpInsert env.codec (singlePassDoc m) dataUrl with
        | .error msg =>
          { base with
            removedFields := m.removed
            addedFields := m.added
            error := some msg
            file := some file
            cleanedSize := file.size }
        | .ok newUrl =>
          let sz := env.blobSize newUrl
          { base with
            success := true
            file := some { name := file.name, type := file.type, content := newUrl, size := sz }
            cleanedSize := sz
            removedFields := m.removed
            addedFields := m.added }

end Scripts

/-- A tag value on which the timestamp-rewrite step cannot raise: absent,
falsy, or a string (`.match` exists only on strings). -/
def dateFieldOk : Option JsVal → Bool
  | some v =>
    if v.truthy then
      match v with
      | .str _ => true
      | _ => false
    else true
  | none => true

/-- The decoded document's two date fields are raise-free for `redactCore`
(the deletions and attribution upserts touch neither key, so checking the
original document suffices). -/
def dateFieldsOk (e : Exif) : Bool :=
  dateFieldOk (ifdLookup e.exifIfd tagDateTimeOriginal) &&
  dateFieldOk (ifdLookup e.zeroth tagDateTime)

/-- Every entry of the directory passes the encoder-validity test. -/
def ifdAllValid (l : IFD) : Bool := l.all fun kv => validVal kv.2

/-- Every entry of every group passes the encoder-validity test. -/
def Exif.allValid (e : Exif) : Bool :=
  ifdAllValid e.zeroth && ifdAllValid e.exifIfd && ifdAllValid e.gps &&
  ifdAllValid e.first && ifdAllValid e.interop

/-- The EXIF document, if any, embedded in the file a cleanup returned. -/
def outputDoc (r : CleanupResult) : Option Exif :=
  match r.file with
  | some f => f.content.exif
  | none => none

-- Concrete fixtures used by witnesses and counterexamples.

/-- A codec on which no call ever raises (every tier-1 encode succeeds). -/
def happyCodec : Codec :=
  { dumpErr := fun _ => none, insertErr := fun _ _ => none, removeErr := fun _ => none }

/-- Environment with the happy codec; HEIC pixel decoding raises. -/
def envHappy : Env :=
  { codec := happyCodec, heicConvert := fun _ => .error "无法解码 HEIC/HEIF 文件",
    nowDateStr := "2026:10:11", blobSize := fun _ => 1000 }

/-- Environment where every `piexif.dump` and every `piexif.remove` raises:
all four fallback tiers fail. -/
def envAllFail : Env :=
  { envHappy with
    codec := { dumpErr := fun _ => some "dump failed"
               insertErr := fun _ _ => none
               removeErr := fun _ => some "strip failed" } }

/-- Environment where every `piexif.dump` raises but `piexif.remove`
succeeds: tiers 1-3 fail and the tier-4 bare strip wins. -/
def envTierFour : Env :=
  { envHappy with
    codec := { dumpErr := fun _ => some "dump failed"
               insertErr := fun _ _ => none
               removeErr := fun _ => none } }

/-- A decoded document with representative privacy tags, orientation 6, a
GPS entry and well-formed timestamps. -/
def sampleExif : Exif :=
  { zeroth := [(tagMake, .str "Apple"), (tagModel, .str "iPhone 15"),
               (tagOrientation, .num 6), (tagXResolution, .arr [.num 72, .num 1]),
               (tagDateTime, .str "2023:05:14 13:45:22")],
    exifIfd := [(tagDateTimeOriginal, .str "2023:05:14 13:45:22"),
                (tagMakerNote, .str "private blob"),
                (tagBodySerialNumber, .str "SN123")],
    gps := [(2, .arr [.arr [.num 31, .num 1], .arr [.num 12, .num 1], .arr [.num 0, .num 1]])],
    first := [(259, .num 6)], interop := [], thumbnail := some "thumbbytes" }

/-- A JPEG file carrying `sampleExif`. -/
def fileSample : JsFile :=
  { name := "a.jpg", type := "image/jpeg",
    content := { pixels := "PIXELS", exif := some sampleExif }, size := 42 }

/-- A JPEG whose tag directory cannot be decoded. -/
def fileNoExif : JsFile :=
  { name := "plain.jpg", type := "image/jpeg",
    content := { pixels := "PIXELS", exif := none }, size := 7 }

/-- A JPEG whose only notable tag is a valid `XPAuthor` value. -/
def fileXP : JsFile :=
  { name := "xp.jpg", type := "image/jpeg",
    content := { pixels := "PIXELS",
                 exif := some { zeroth := [(tagXPAuthor, .str "author-name")],
                                exifIfd := [], gps := [], first := [],
                                interop := [], thumbnail := none } },
    size := 10 }

/-- A JPEG whose `DateTimeOriginal` is the malformed string `not-a-date`. -/
def fileBadDate : JsFile :=
  { name := "bad.jpg", type := "image/jpeg",
    content := { pixels := "PIXELS",
                 exif := some { zeroth := [], gps := [], first := [], interop := [],
                                exifIfd := [(tagDateTimeOriginal, .str "not-a-date")],
                                thumbnail := none } },
    size := 11 }

/-- A JPEG carrying only an orientation tag with value 6. -/
def fileOrient : JsFile :=
  { name := "o.jpg", type := "image/jpeg",
    content := { pixels := "PIXELS",
                 exif := some { zeroth := [(tagOrientation, .num 6)],
                                exifIfd := [], gps := [], first := [],
                                interop := [], thumbnail := none } },
    size := 12 }

/-- A HEIC file (by MIME type and suffix). -/
def fileHeic : JsFile :=
  { name := "photo.heic", type := "image/heic",
    content := { pixels := "HEIC", exif := none }, size := 33 }

/-- A decoded document all of whose tag values are encoder-valid. -/
def sampleValidExif : Exif :=
  { zeroth := [(tagMake, .str "Apple"), (tagOrientation, .num 3),
               (tagDateTime, .str "2024:01:02 03:04:05")],
    exifIfd := [(tagDateTimeOriginal, .str "2024:01:02 03:04:05"),
                (tagUserComment, .str "hello")],
    gps := [(1, .num 2)], first := [], interop := [], thumbnail := none }

/-- A JPEG file carrying `sampleValidExif`. -/
def fileValid : JsFile :=
  { name := "v.jpg", type := "image/jpeg",
    content := { pixels := "PIXELS", exif := some sampleValidExif }, size := 20 }

/-- The batch used by the aggregation witness. -/
def batchFiles : List JsFile := [fileSample, fileHeic, fileNoExif]

/-! ## Dictionary lemmas -/

theorem ifdLookup_set_self (l : IFD) (t : Nat) (v : JsVal) :
    ifdLookup (ifdSet l t v) t = some v := by
  induction l with
  | nil => simp [ifdSet, ifdLookup]
  | cons kv rest ih =>
    obtain ⟨k, w⟩ := kv
    simp only [ifdSet]
    split
    · simp [ifdLookup]
    · next hk => simp [ifdLookup, hk, ih]

theorem ifdLookup_set_ne (l : IFD) (t u : Nat) (v : JsVal) (h : u ≠ t) :
    ifdLookup (ifdSet l t v) u = ifdLookup l u := by
  induction l with
  | nil => simp [ifdSet, ifdLookup, Ne.symm h]
  | cons kv rest ih =>
    obtain ⟨k, w⟩ := kv
    simp only [ifdSet]
    split
    · next hk =>
      subst hk
      simp [ifdLookup, Ne.symm h]
    · next hk => simp [ifdLookup, ih]

theorem ifdLookup_erase_self (l : IFD) (t : Nat) :
    ifdLookup (ifdErase l t) t = none := by
  induction l with
  | nil => simp [ifdErase, ifdLookup]
  | cons kv rest ih =>
    obtain ⟨k, w⟩ := kv
    simp only [ifdErase]
    split
    · exact ih
    · next hk => simp [ifdLookup, hk, ih]

theorem ifdLookup_erase_ne (l : IFD) (t u : Nat) (h : u ≠ t) :
    ifdLookup (ifdErase l t) u = ifdLookup l u := by
  induction l with
  | nil => simp [ifdErase]
  | cons kv rest ih =>
    obtain ⟨k, w⟩ := kv
    simp only [ifdErase]
    split
    · next hk =>
      subst hk
      simp [ifdLookup, Ne.symm h, ih]
    · next hk => simp [ifdLookup, ih]

theorem ifdSet_of_lookup_eq (l : IFD) (t : Nat) (v : JsVal)
    (h : ifdLookup l t = some v) : ifdSet l t v = l := by
  induction l with
  | nil => simp [ifdLookup] at h
  | cons kv rest ih =>
    obtain ⟨k, w⟩ := kv
    simp only [ifdLookup] at h
    simp only [ifdSet]
    split
    · next hk =>
      subst hk
      rw [if_pos rfl] at h
      cases h
      rfl
    · next hk =>
      rw [if_neg hk] at h
      rw [ih h]

theorem ifdLookup_setIfSome_ne (l : IFD) (t u : Nat) (o : Option JsVal) (h : u ≠ t) :
    ifdLookup (setIfSome l t o) u = ifdLookup l u := by
  cases o with
  | none => rfl
  | some v => exact ifdLookup_set_ne l t u v h

theorem ifdLookup_setIfTruthy_ne (l : IFD) (t u : Nat) (o : Option JsVal) (h : u ≠ t) :
    ifdLookup (setIfTruthy l t o) u = ifdLookup l u := by
  cases o with
  | none => rfl
  | some v =>
    simp only [setIfTruthy]
    split
    · exact ifdLookup_set_ne l t u v h
    · rfl



/-! ## `cleanExifIfd` lemmas -/

theorem cleanExifIfd_lookup_none (l : IFD) (ks : List Nat) (t : Nat)
    (h : ifdLookup l t = none) : ifdLookup (cleanExifIfd l ks) t = none := by
  induction l with
  | nil => simpa [cleanExifIfd] using h
  | cons kv rest ih =>
    obtain ⟨k, w⟩ := kv
    simp only [ifdLookup] at h
    by_cases hk : k = t
    · simp [hk] at h
    · rw [if_neg hk] at h
      simp only [cleanExifIfd, List.filterMap_cons]
      by_cases hc : cleanKeeps ks k w
      · simp only [hc, if_pos]
        simpa [ifdLookup, hk, cleanExifIfd] using ih h
      · simp only [hc]
        simpa [cleanExifIfd] using ih h

theorem cleanExifIfd_lookup_keep (l : IFD) (ks : List Nat) (t : Nat) (v : JsVal)
    (h : ifdLookup l t = some v) (hkeep : cleanKeeps ks t v = true) :
    ifdLookup (cleanExifIfd l ks) t = some v := by
  induction l with
  | nil => simp [ifdLookup] at h
  | cons kv rest ih =>
    obtain ⟨k, w⟩ := kv
    simp only [ifdLookup] at h
    by_cases hk : k = t
    · subst hk
      rw [if_pos rfl] at h
      cases h
      simp [cleanExifIfd, List.filterMap_cons, hkeep, ifdLookup]
    · rw [if_neg hk] at h
      simp only [cleanExifIfd, List.filterMap_cons]
      by_cases hc : cleanKeeps ks k w
      · simp only [hc, if_pos]
        simpa [ifdLookup, hk, cleanExifIfd] using ih h
      · simp only [hc]
        simpa [cleanExifIfd] using ih h

theorem cleanKeeps_of_validVal (ks : List Nat) (t : Nat) (v : JsVal)
    (h : validVal v = true) : cleanKeeps ks t v = true := by
  by_cases hm : t ∈ ks
  · cases v <;> simp_all [cleanKeeps, validVal]
  · simpa [cleanKeeps, hm] using h

theorem cleanExifIfd_eq_self (l : IFD) (ks : List Nat)
    (h : ifdAllValid l = true) : cleanExifIfd l ks = l := by
  induction l with
  | nil => simp [cleanExifIfd]
  | cons kv rest ih =>
    obtain ⟨k, w⟩ := kv
    simp only [ifdAllValid, List.all_cons, Bool.and_eq_true] at h
    have h2 : cleanExifIfd rest ks = rest := ih (by simpa [ifdAllValid] using h.2)
    simp only [cleanExifIfd, List.filterMap_cons, cleanKeeps_of_validVal ks k w h.1,
               if_pos] at h2 ⊢
    simpa [cleanExifIfd] using h2

/-! ## `applyDeletes` lemmas -/

theorem applyDeletes_lookup_none (spec : List (Nat × EntryStyle)) (l : IFD)
    (rep : List String) (t : Nat) (h : ifdLookup l t = none) :
    ifdLookup (applyDeletes l rep spec).1 t = none := by
  induction spec generalizing l rep with
  | nil => simpa [applyDeletes] using h
  | cons p rest ih =>
    obtain ⟨t0, es⟩ := p
    simp only [applyDeletes]
    cases hl : ifdLookup l t0 with
    | none => exact ih l rep h
    | some v =>
      by_cases ht : t = t0
      · subst ht
        exact ih _ _ (ifdLookup_erase_self l t)
      · exact ih _ _ (by rw [ifdLookup_erase_ne l t0 t ht]; exact h)

theorem applyDeletes_lookup_not_mem (spec : List (Nat × EntryStyle)) (l : IFD)
    (rep : List String) (t : Nat) (h : t ∉ spec.map Prod.fst) :
    ifdLookup (applyDeletes l rep spec).1 t = ifdLookup l t := by
  induction spec generalizing l rep with
  | nil => simp [applyDeletes]
  | cons p rest ih =>
    obtain ⟨t0, es⟩ := p
    simp only [List.map_cons, List.mem_cons, not_or] at h
    simp only [applyDeletes]
    cases hl : ifdLookup l t0 with
    | none => exact ih l rep h.2
    | some v =>
      rw [ih _ _ h.2]
      exact ifdLookup_erase_ne l t0 t h.1

theorem applyDeletes_lookup_mem (spec : List (Nat × EntryStyle)) (l : IFD)
    (rep : List String) (t : Nat) (h : t ∈ spec.map Prod.fst) :
    ifdLookup (applyDeletes l rep spec).1 t = none := by
  induction spec generalizing l rep with
  | nil => simp at h
  | cons p rest ih =>
    obtain ⟨t0, es⟩ := p
    simp only [List.map_cons, List.mem_cons] at h
    simp only [applyDeletes]
    by_cases ht : t = t0
    · subst ht
      cases hl : ifdLookup l t with
      | none => exact applyDeletes_lookup_none rest l rep t hl
      | some v => exact applyDeletes_lookup_none rest _ _ t (ifdLookup_erase_self l t)
    · have hmem : t ∈ rest.map Prod.fst := h.resolve_left ht
      cases hl : ifdLookup l t0 with
      | none => exact ih l rep hmem
      | some v => exact ih _ _ hmem

theorem applyDeletes_snd_mem_of_rep (spec : List (Nat × EntryStyle)) (l : IFD)
    (rep : List String) (s : String) (h : s ∈ rep) :
    s ∈ (applyDeletes l rep spec).2 := by
  induction spec generalizing l rep with
  | nil => simpa [applyDeletes] using h
  | cons p rest ih =>
    obtain ⟨t0, es⟩ := p
    simp only [applyDeletes]
    cases hl : ifdLookup l t0 with
    | none => exact ih l rep h
    | some v => exact ih _ _ (List.mem_append_left _ h)

theorem applyDeletes_snd_mem (spec : List (Nat × EntryStyle)) (l : IFD)
    (rep : List String) (s : String) (h : s ∈ (applyDeletes l rep spec).2) :
    s ∈ rep ∨ ∃ t es v, (t, es) ∈ spec ∧ s = entryText es v := by
  induction spec generalizing l rep with
  | nil => exact Or.inl (by simpa [applyDeletes] using h)
  | cons p rest ih =>
    obtain ⟨t0, es0⟩ := p
    simp only [applyDeletes] at h
    cases hl : ifdLookup l t0 with
    | none =>
      rw [hl] at h
      rcases ih l rep h with h1 | ⟨t, es, v, hmem, hs⟩
      · exact Or.inl h1
      · exact Or.inr ⟨t, es, v, List.mem_cons_of_mem _ hmem, hs⟩
    | some v0 =>
      rw [hl] at h
      rcases ih _ _ h with h1 | ⟨t, es, v, hmem, hs⟩
      · rcases List.mem_append.mp h1 with h2 | h2
        · exact Or.inl h2
        · exact Or.inr ⟨t0, es0, v0, List.mem_cons_self _ _, by simpa using h2⟩
      · exact Or.inr ⟨t, es, v, List.mem_cons_of_mem _ hmem, hs⟩

/-! ## Timestamp-step lemmas -/

theorem dtoStep_ok_of_ok (l : IFD) (add : List String)
    (h : dateFieldOk (ifdLookup l tagDateTimeOriginal) = true) :
    ∃ out, dtoStep l add = Except.ok out := by
  unfold dtoStep
  cases hl : ifdLookup l tagDateTimeOriginal with
  | none => exact ⟨_, rfl⟩
  | some v =>
    rw [hl] at h
    simp only [dateFieldOk] at h
    by_cases hv : v.truthy
    · rw [if_pos hv] at h
      cases v with
      | str s =>
        simp only [hv, if_true]
        cases formatExifDate s with
        | none => exact ⟨_, rfl⟩
        | some c => exact ⟨_, rfl⟩
      | nullv => simp at h
      | num n => simp at h
      | nan => simp at h
      | inf => simp at h
      | arr es => simp at h
    · simp only [hv, if_false]
      exact ⟨_, rfl⟩


theorem dtoStep_lookup_ne (l : IFD) (add : List String) (out : IFD × List String)
    (t : Nat) (ht : t ≠ tagDateTimeOriginal)
    (h : dtoStep l add = Except.ok out) : ifdLookup out.1 t = ifdLookup l t := by
  unfold dtoStep at h
  cases hl : ifdLookup l tagDateTimeOriginal with
  | none => rw [hl] at h; cases h; rfl
  | some v =>
    rw [hl] at h
    dsimp only at h
    by_cases hv : v.truthy
    · rw [if_pos hv] at h
      cases v with
      | str s =>
        dsimp only at h
        cases hf : formatExifDate s with
        | none => rw [hf] at h; cases h; rfl
        | some c =>
          rw [hf] at h
          cases h
          exact ifdLookup_set_ne l tagDateTimeOriginal t (.str c) ht
      | nullv => simp [JsVal.truthy] at hv
      | num n => dsimp only at h; cases h
      | nan => simp [JsVal.truthy] at hv
      | inf => dsimp only at h; cases h
      | arr es => dsimp only at h; cases h
    · rw [if_neg hv] at h
      cases h
      rfl

theorem dtoStep_snd (l : IFD) (add : List String) (out : IFD × List String)
    (h : dtoStep l add = Except.ok out) :
    out.2 = add ∨ ∃ c, out.2 = add ++ ["DateTimeOriginal: " ++ c] := by
  unfold dtoStep at h
  cases hl : ifdLookup l tagDateTimeOriginal with
  | none => rw [hl] at h; cases h; exact Or.inl rfl
  | some v =>
    rw [hl] at h
    dsimp only at h
    by_cases hv : v.truthy
    · rw [if_pos hv] at h
      cases v with
      | str s =>
        dsimp only at h
        cases hf : formatExifDate s with
        | none => rw [hf] at h; cases h; exact Or.inl rfl
        | some c => rw [hf] at h; cases h; exact Or.inr ⟨c, rfl⟩
      | nullv => simp [JsVal.truthy] at hv
      | num n => dsimp only at h; cases h
      | nan => simp [JsVal.truthy] at hv
      | inf => dsimp only at h; cases h
      | arr es => dsimp only at h; cases h
    · rw [if_neg hv] at h
      cases h
      exact Or.inl rfl

theorem dtoStep_str_lookup (l : IFD) (add : List String) (out : IFD × List String)
    (s : String) (hl : ifdLookup l tagDateTimeOriginal = some (.str s))
    (h : dtoStep l add = Except.ok out) :
    ifdLookup out.1 tagDateTimeOriginal = some (.str ((formatExifDate s).getD s)) := by
  unfold dtoStep at h
  rw [hl] at h
  dsimp only at h
  by_cases hv : (JsVal.str s).truthy
  · rw [if_pos hv] at h
    cases hf : formatExifDate s with
    | none => rw [hf] at h; cases h; simpa [hf] using hl
    | some c =>
      rw [hf] at h
      cases h
      simp [hf, ifdLookup_set_self]
  · rw [if_neg hv] at h
    cases h
    have hs : s = "" := by
      by_contra hne
      simp [JsVal.truthy, hne] at hv
    subst hs
    simpa [formatExifDate] using hl

theorem dtStep_ok_of_ok (l : IFD)
    (h : dateFieldOk (ifdLookup l tagDateTime) = true) :
    ∃ out, dtStep l = Except.ok out := by
  unfold dtStep
  cases hl : ifdLookup l tagDateTime with
  | none => exact ⟨_, rfl⟩
  | some v =>
    rw [hl] at h
    simp only [dateFieldOk] at h
    by_cases hv : v.truthy
    · rw [if_pos hv] at h
      cases v with
      | str s =>
        simp only [hv, if_true]
        cases formatExifDate s with
        | none => exact ⟨_, rfl⟩
        | some c => exact ⟨_, rfl⟩
      | nullv => simp at h
      | num n => simp at h
      | nan => simp at h
      | inf => simp at h
      | arr es => simp at h
    · simp only [hv, if_false]
      exact ⟨_, rfl⟩

theorem dtStep_lookup_ne (l : IFD) (out : IFD) (t : Nat) (ht : t ≠ tagDateTime)
    (h : dtStep l = Except.ok out) : ifdLookup out t = ifdLookup l t := by
  unfold dtStep at h
  cases hl : ifdLookup l tagDateTime with
  | none => rw [hl] at h; cases h; rfl
  | some v =>
    rw [hl] at h
    dsimp only at h
    by_cases hv : v.truthy
    · rw [if_pos hv] at h
      cases v with
      | str s =>
        dsimp only at h
        cases hf : formatExifDate s with
        | none => rw [hf] at h; cases h; rfl
        | some c =>
          rw [hf] at h
          cases h
          exact ifdLookup_set_ne l tagDateTime t (.str c) ht
      | nullv => simp [JsVal.truthy] at hv
      | num n => dsimp only at h; cases h
      | nan => simp [JsVal.truthy] at hv
      | inf => dsimp only at h; cases h
      | arr es => dsimp only at h; cases h
    · rw [if_neg hv] at h
      cases h
      rfl

theorem dtStep_str_lookup (l : IFD) (out : IFD)
    (s : String) (hl : ifdLookup l tagDateTime = some (.str s))
    (h : dtStep l = Except.ok out) :
    ifdLookup out tagDateTime = some (.str ((formatExifDate s).getD s)) := by
  unfold dtStep at h
  rw [hl] at h
  dsimp only at h
  by_cases hv : (JsVal.str s).truthy
  · rw [if_pos hv] at h
    cases hf : formatExifDate s with
    | none => rw [hf] at h; cases h; simpa [hf] using hl
    | some c =>
      rw [hf] at h
      cases h
      simp [hf, ifdLookup_set_self]
  · rw [if_neg hv] at h
    cases h
    have hs : s = "" := by
      by_contra hne
      simp [JsVal.truthy, hne] at hv
    subst hs
    simpa [formatExifDate] using hl

/-! ## `redactCore` decomposition lemmas -/

theorem dtoStep_error_dateFieldOk (l : IFD) (add : List String) (msg : String)
    (h : dtoStep l add = Except.error msg) :
    dateFieldOk (ifdLookup l tagDateTimeOriginal) = false := by
  unfold dtoStep at h
  cases hl : ifdLookup l tagDateTimeOriginal with
  | none => rw [hl] at h; cases h
  | some v =>
    rw [hl] at h
    dsimp only at h
    by_cases hv : v.truthy
    · rw [if_pos hv] at h
      cases v with
      | str s =>
        dsimp only at h
        cases hf : formatExifDate s with
        | none => rw [hf] at h; cases h
        | some c => rw [hf] at h; cases h
      | nullv => simp [JsVal.truthy] at hv
      | num n => simp [dateFieldOk, hv]
      | nan => simp [JsVal.truthy] at hv
      | inf => simp [dateFieldOk, hv]
      | arr es => simp [dateFieldOk, hv]
    · rw [if_neg hv] at h
      cases h

theorem dtStep_error_dateFieldOk (l : IFD) (msg : String)
    (h : dtStep l = Except.error msg) :
    dateFieldOk (ifdLookup l tagDateTime) = false := by
  unfold dtStep at h
  cases hl : ifdLookup l tagDateTime with
  | none => rw [hl] at h; cases h
  | some v =>
    rw [hl] at h
    dsimp only at h
    by_cases hv : v.truthy
    · rw [if_pos hv] at h
      cases v with
      | str s =>
        dsimp only at h
        cases hf : formatExifDate s with
        | none => rw [hf] at h; cases h
        | some c => rw [hf] at h; cases h
      | nullv => simp [JsVal.truthy] at hv
      | num n => simp [dateFieldOk, hv]
      | nan => simp [JsVal.truthy] at hv
      | inf => simp [dateFieldOk, hv]
      | arr es => simp [dateFieldOk, hv]
    · rw [if_neg hv] at h
      cases h

theorem redactCore_error_dateFieldsOk (e : Exif) (c a o : String)
    (err : List String × List String × String)
    (h : redactCore e c a o = Except.error err) : dateFieldsOk e = false := by
  unfold redactCore at h
  dsimp only at h
  split at h
  · next msg heq =>
    have h1 := dtoStep_error_dateFieldOk _ _ _ heq
    rw [applyDeletes_lookup_not_mem _ _ _ _ (by decide)] at h1
    simp [dateFieldsOk, h1]
  · next out heq =>
    split at h
    · next msg heq2 =>
      have h1 := dtStep_error_dateFieldOk _ _ heq2
      rw [ifdLookup_set_ne _ _ _ _ (by decide), ifdLookup_set_ne _ _ _ _ (by decide),
          applyDeletes_lookup_not_mem _ _ _ _ (by decide)] at h1
      simp [dateFieldsOk, h1]
    · cases h

theorem append_ne_of_head (p x q : String) (c d : Char)
    (hp : p.data.head? = some c) (hq : q.data.head? = some d) (hcd : c ≠ d) :
    p ++ x ≠ q := by
  intro he
  have hd := congrArg String.data he
  rw [String.data_append] at hd
  cases hp' : p.data with
  | nil => rw [hp'] at hp; cases hp
  | cons b bs =>
    rw [hp'] at hp hd
    simp only [List.head?] at hp
    cases hp
    rw [← hd] at hq
    simp only [List.cons_append, List.head?] at hq
    cases hq
    exact hcd rfl

theorem redactCore_ok_ifd0 (e : Exif) (c a o : String) (m : RedactMid)
    (h : redactCore e c a o = Except.ok m) :
    (∀ t, t ∉ ([tagMake, tagModel, tagSoftware, tagHostComputer,
                tagCopyright, tagArtist, tagDateTime] : List Nat) →
       ifdLookup m.ifd0 t = ifdLookup e.zeroth t) ∧
    (∀ t, t ∈ ([tagMake, tagModel, tagSoftware, tagHostComputer] : List Nat) →
       ifdLookup m.ifd0 t = none) ∧
    ifdLookup m.ifd0 tagCopyright = some (.str c) ∧
    ifdLookup m.ifd0 tagArtist = some (.str a) ∧
    (∀ s, ifdLookup e.zeroth tagDateTime = some (.str s) →
       ifdLookup m.ifd0 tagDateTime = some (.str ((formatExifDate s).getD s))) := by
  unfold redactCore at h
  dsimp only at h
  split at h
  · cases h
  · next out heq =>
    split at h
    · cases h
    · next ifd0c heq2 =>
      cases h
      dsimp only
      refine ⟨?_, ?_, ?_, ?_, ?_⟩
      · intro t ht
        simp only [List.mem_cons, List.not_mem_nil, or_false, not_or] at ht
        rw [dtStep_lookup_ne _ _ t ht.2.2.2.2.2.2 heq2,
            ifdLookup_set_ne _ _ _ _ ht.2.2.2.2.2.1,
            ifdLookup_set_ne _ _ _ _ ht.2.2.2.2.1]
        exact applyDeletes_lookup_not_mem _ _ _ _ (by
          simp only [ifd0DeleteSpec, List.map_cons, List.map_nil, List.mem_cons,
                     List.not_mem_nil, or_false, not_or]
          exact ⟨ht.1, ht.2.1, ht.2.2.1, ht.2.2.2.1⟩)
      · intro t ht
        simp only [List.mem_cons, List.not_mem_nil, or_false] at ht
        rcases ht with rfl | rfl | rfl | rfl <;>
          (rw [dtStep_lookup_ne _ _ _ (by decide) heq2,
               ifdLookup_set_ne _ _ _ _ (by decide),
               ifdLookup_set_ne _ _ _ _ (by decide)]
           exact applyDeletes_lookup_mem _ _ _ _ (by decide))
      · rw [dtStep_lookup_ne _ _ _ (by decide) heq2,
            ifdLookup_set_ne _ _ _ _ (by decide)]
        exact ifdLookup_set_self _ _ _
      · rw [dtStep_lookup_ne _ _ _ (by decide) heq2]
        exact ifdLookup_set_self _ _ _
      · intro s hs
        refine dtStep_str_lookup _ _ s ?_ heq2
        rw [ifdLookup_set_ne _ _ _ _ (by decide),
            ifdLookup_set_ne _ _ _ _ (by decide),
            applyDeletes_lookup_not_mem _ _ _ _ (by decide)]
        exact hs

theorem redactCore_ok_exifIfd (e : Exif) (c a o : String) (m : RedactMid)
    (h : redactCore e c a o = Except.ok m) :
    (∀ t, t ∉ ([tagMakerNote, tagUserComment, tagImageUniqueID, tagCameraOwnerName,
                tagBodySerialNumber, tagLensMake, tagLensModel, tagLensSerialNumber,
                tagDateTimeOriginal, tagOffsetTime, tagOffsetTimeOriginal,
                tagOffsetTimeDigitized] : List Nat) →
       ifdLookup m.exifIfd t = ifdLookup e.exifIfd t) ∧
    (∀ t, t ∈ ([tagMakerNote, tagUserComment, tagImageUniqueID, tagCameraOwnerName,
                tagBodySerialNumber, tagLensMake, tagLensModel,
                tagLensSerialNumber] : List Nat) →
       ifdLookup m.exifIfd t = none) ∧
    ifdLookup m.exifIfd tagOffsetTime = some (.str o) ∧
    ifdLookup m.exifIfd tagOffsetTimeOriginal = some (.str o) ∧
    ifdLookup m.exifIfd tagOffsetTimeDigitized = some (.str o) ∧
    (∀ s, ifdLookup e.exifIfd tagDateTimeOriginal = some (.str s) →
       ifdLookup m.exifIfd tagDateTimeOriginal =
         some (.str ((formatExifDate s).getD s))) := by
  unfold redactCore at h
  dsimp only at h
  split at h
  · cases h
  · next out heq =>
    split at h
    · cases h
    · next ifd0c heq2 =>
      cases h
      dsimp only
      refine ⟨?_, ?_, ?_, ?_, ?_, ?_⟩
      · intro t ht
        simp only [List.mem_cons, List.not_mem_nil, or_false, not_or] at ht
        rw [ifdLookup_set_ne _ _ _ _ ht.2.2.2.2.2.2.2.2.2.1,
            ifdLookup_set_ne _ _ _ _ ht.2.2.2.2.2.2.2.2.2.2.2,
            ifdLookup_set_ne _ _ _ _ ht.2.2.2.2.2.2.2.2.2.2.1,
            dtoStep_lookup_ne _ _ _ t ht.2.2.2.2.2.2.2.2.1 heq]
        exact applyDeletes_lookup_not_mem _ _ _ _ (by
          simp only [exifDeleteSpec, List.map_cons, List.map_nil, List.mem_cons,
                     List.not_mem_nil, or_false, not_or]
          exact ⟨ht.1, ht.2.1, ht.2.2.1, ht.2.2.2.1, ht.2.2.2.2.1, ht.2.2.2.2.2.1,
                 ht.2.2.2.2.2.2.1, ht.2.2.2.2.2.2.2.1⟩)
      · intro t ht
        simp only [List.mem_cons, List.not_mem_nil, or_false] at ht
        rcases ht with rfl | rfl | rfl | rfl | rfl | rfl | rfl | rfl <;>
          (rw [ifdLookup_set_ne _ _ _ _ (by decide),
               ifdLookup_set_ne _ _ _ _ (by decide),
               ifdLookup_set_ne _ _ _ _ (by decide),
               dtoStep_lookup_ne _ _ _ _ (by decide) heq]
           exact applyDeletes_lookup_mem _ _ _ _ (by decide))
      · exact ifdLookup_set_self _ _ _
      · rw [ifdLookup_set_ne _ _ _ _ (by decide),
            ifdLookup_set_ne _ _ _ _ (by decide)]
        exact ifdLookup_set_self _ _ _
      · rw [ifdLookup_set_ne _ _ _ _ (by decide)]
        exact ifdLookup_set_self _ _ _
      · intro s hs
        rw [ifdLookup_set_ne _ _ _ _ (by decide),
            ifdLookup_set_ne _ _ _ _ (by decide),
            ifdLookup_set_ne _ _ _ _ (by decide)]
        refine dtoStep_str_lookup _ _ _ s ?_ heq
        rw [applyDeletes_lookup_not_mem _ _ _ _ (by decide)]
        exact hs

theorem redactCore_ok_gps (e : Exif) (c a o : String) (m : RedactMid)
    (h : redactCore e c a o = Except.ok m) : m.gps = [] := by
  unfold redactCore at h
  dsimp only at h
  split at h
  · cases h
  · next out heq =>
    split at h
    · cases h
    · next ifd0c heq2 =>
      cases h
      dsimp only
      by_cases hg : e.gps.isEmpty
      · rw [if_pos hg]
        exact List.isEmpty_iff.mp hg
      · rw [if_neg hg]

theorem ifd0DeleteSpec_entry_ne_gps (t : Nat) (es : EntryStyle) (v : JsVal)
    (hmem : (t, es) ∈ ifd0DeleteSpec) : entryText es v ≠ "GPS (entire block)" := by
  simp only [ifd0DeleteSpec, List.mem_cons, List.not_mem_nil, or_false,
             Prod.mk.injEq] at hmem
  rcases hmem with ⟨_, rfl⟩ | ⟨_, rfl⟩ | ⟨_, rfl⟩ | ⟨_, rfl⟩
  · exact append_ne_of_head _ _ _ 'M' 'G' (by decide) (by decide) (by decide)
  · exact append_ne_of_head _ _ _ 'M' 'G' (by decide) (by decide) (by decide)
  · exact append_ne_of_head _ _ _ 'S' 'G' (by decide) (by decide) (by decide)
  · exact append_ne_of_head _ _ _ 'H' 'G' (by decide) (by decide) (by decide)

theorem exifDeleteSpec_entry_ne_gps (t : Nat) (es : EntryStyle) (v : JsVal)
    (hmem : (t, es) ∈ exifDeleteSpec) : entryText es v ≠ "GPS (entire block)" := by
  simp only [exifDeleteSpec, List.mem_cons, List.not_mem_nil, or_false,
             Prod.mk.injEq] at hmem
  rcases hmem with ⟨_, rfl⟩ | ⟨_, rfl⟩ | ⟨_, rfl⟩ | ⟨_, rfl⟩ | ⟨_, rfl⟩ | ⟨_, rfl⟩ |
    ⟨_, rfl⟩ | ⟨_, rfl⟩
  · exact (by decide : ("MakerNote (Apple privacy data)" : String) ≠ "GPS (entire block)")
  · exact (by decide : ("UserComment" : String) ≠ "GPS (entire block)")
  · exact append_ne_of_head _ _ _ 'I' 'G' (by decide) (by decide) (by decide)
  · exact append_ne_of_head _ _ _ 'C' 'G' (by decide) (by decide) (by decide)
  · exact (by decide : ("BodySerialNumber" : String) ≠ "GPS (entire block)")
  · exact append_ne_of_head _ _ _ 'L' 'G' (by decide) (by decide) (by decide)
  · exact append_ne_of_head _ _ _ 'L' 'G' (by decide) (by decide) (by decide)
  · exact (by decide : ("LensSerialNumber" : String) ≠ "GPS (entire block)")

theorem redactCore_ok_removed_gps (e : Exif) (c a o : String) (m : RedactMid)
    (h : redactCore e c a o = Except.ok m) :
    ("GPS (entire block)" ∈ m.removed ↔ e.gps ≠ []) := by
  unfold redactCore at h
  dsimp only at h
  split at h
  · cases h
  · next out heq =>
    split at h
    · cases h
    · next ifd0c heq2 =>
      cases h
      dsimp only
      constructor
      · intro hmem
        intro hnil
        have hg : e.gps.isEmpty = true := by simp [hnil]
        rw [if_pos hg] at hmem
        have hmem2 : "GPS (entire block)" ∈
            (applyDeletes e.exifIfd
              (applyDeletes e.zeroth [] ifd0DeleteSpec).2 exifDeleteSpec).2 := by
          by_cases hf : e.first.isEmpty
          · rw [if_pos hf] at hmem
            exact hmem
          · rw [if_neg hf] at hmem
            rcases List.mem_append.mp hmem with h1 | h1
            · exact h1
            · simp at h1
        rcases applyDeletes_snd_mem _ _ _ _ hmem2 with h1 | ⟨t, es, v, hm, hs⟩
        · rcases applyDeletes_snd_mem _ _ _ _ h1 with h2 | ⟨t, es, v, hm, hs⟩
          · simp at h2
          · exact ifd0DeleteSpec_entry_ne_gps t es v hm hs.symm
        · exact exifDeleteSpec_entry_ne_gps t es v hm hs.symm
      · intro hne
        have hg : e.gps.isEmpty = false := by
          cases hgg : e.gps with
          | nil => exact absurd hgg hne
          | cons x xs => rfl
        rw [if_neg (show ¬(List.isEmpty e.gps = true) by simp [hg])]
        have h1 : "GPS (entire block)" ∈
            (applyDeletes e.zeroth ["GPS (entire block)"] ifd0DeleteSpec).2 :=
          applyDeletes_snd_mem_of_rep _ _ _ _ (by simp)
        have h2 := applyDeletes_snd_mem_of_rep exifDeleteSpec e.exifIfd _ _ h1
        by_cases hf : e.first.isEmpty
        · rw [if_pos hf]
          exact h2
        · rw [if_neg hf]
          exact List.mem_append_left _ h2

/-! ## Fallback-cascade lemmas -/

theorem tryDumpInsert_ok (c : Codec) (t : Exif) (u : DataUrl) (d : DataUrl)
    (h : tryDumpInsert c t u = Except.ok d) : d = embedExif t u := by
  unfold tryDumpInsert at h
  cases h1 : c.dumpErr t with
  | some m => rw [h1] at h; cases h
  | none =>
    rw [h1] at h
    dsimp only at h
    cases h2 : c.insertErr t u with
    | some m => rw [h2] at h; cases h
    | none => rw [h2] at h; cases h; rfl

theorem fallbackEncode_ok_shape (c : Codec) (u : DataUrl) (t1 t2 t3 : Exif)
    (d : DataUrl) (ex : List String)
    (h : fallbackEncode c u t1 t2 t3 = CascadeOut.ok d ex) :
    (d.exif = some t1 ∨ d.exif = some t2 ∨ d.exif = some t3 ∨ d.exif = none) ∧
    d.pixels = u.pixels ∧
    (ex = [] ∨
     ex = ["Some EXIF tags could not be preserved (display-related tags kept)"] ∨
     ex = ["All EXIF stripped and rebuilt with minimal safe values (Orientation preserved)"] ∨
     ex = ["All EXIF completely stripped (no new EXIF added)"]) := by
  unfold fallbackEncode at h
  split at h
  · next d0 heq =>
    cases h
    cases tryDumpInsert_ok _ _ _ _ heq
    exact ⟨Or.inl rfl, rfl, Or.inl rfl⟩
  · next m1 heq =>
    split at h
    · next d0 heq2 =>
      cases h
      cases tryDumpInsert_ok _ _ _ _ heq2
      exact ⟨Or.inr (Or.inl rfl), rfl, Or.inr (Or.inl rfl)⟩
    · next m2 heq2 =>
      dsimp only at h
      split at h
      · next d0 heq3 =>
        cases h
        cases hr : c.removeErr u with
        | some m => rw [hr] at heq3; cases heq3
        | none =>
          rw [hr] at heq3
          cases tryDumpInsert_ok _ _ _ _ heq3
          exact ⟨Or.inr (Or.inr (Or.inl rfl)), rfl, Or.inr (Or.inr (Or.inl rfl))⟩
      · next m3 heq3 =>
        split at h
        · cases h
        · cases h
          exact ⟨Or.inr (Or.inr (Or.inr rfl)), rfl, Or.inr (Or.inr (Or.inr rfl))⟩

theorem fallbackEncode_happy (c : Codec) (u : DataUrl) (t1 t2 t3 : Exif)
    (h1 : c.dumpErr t1 = none) (h2 : c.insertErr t1 u = none) :
    fallbackEncode c u t1 t2 t3 = CascadeOut.ok (embedExif t1 u) [] := by
  unfold fallbackEncode tryDumpInsert
  rw [h1]
  dsimp only
  rw [h2]

theorem fallbackEncode_exhausted (c : Codec) (u : DataUrl) (t1 t2 t3 : Exif)
    (hd : ∀ x, c.dumpErr x ≠ none) (hr : ∀ x, c.removeErr x ≠ none) :
    ∃ m1, c.dumpErr t1 = some m1 ∧
      fallbackEncode c u t1 t2 t3 = CascadeOut.exhausted m1 := by
  unfold fallbackEncode tryDumpInsert
  cases h1 : c.dumpErr t1 with
  | none => exact absurd h1 (hd t1)
  | some m1 =>
    refine ⟨m1, rfl, ?_⟩
    dsimp only
    cases h2 : c.dumpErr t2 with
    | none => exact absurd h2 (hd t2)
    | some m2 =>
      dsimp only
      cases h3 : c.removeErr u with
      | none => exact absurd h3 (hr u)
      | some m3 => dsimp only

/-! ## Pipeline evaluation lemmas -/

theorem Part002.cleanup_eq_noexif (env : Env) (file : JsFile) (opts : CleanupOptions)
    (hH : isHeicFormat file = false) (hJ : isJpegFormat file = true)
    (he : file.content.exif = none) :
    Part002.cleanupExifFromFile env file opts =
      { success := true, file := some file, originalSize := file.size,
        cleanedSize := file.size, error := some "无法解析 EXIF 数据，返回原文件",
        removedFields := [], addedFields := [], convertedFrom := none } := by
  unfold Part002.cleanupExifFromFile
  rw [hH, hJ]
  dsimp only [Bool.not_true, Bool.false_eq_true, if_false]
  rw [he]
  rfl

theorem Part002.cleanup_eq_redact_error (env : Env) (file : JsFile)
    (opts : CleanupOptions) (e : Exif) (rem add : List String) (msg : String)
    (hH : isHeicFormat file = false) (hJ : isJpegFormat file = true)
    (he : file.content.exif = some e)
    (hrc : redactCore e (opts.copyright.getD Part002.DEFAULT_COPYRIGHT_INFO.copyright)
        (opts.artist.getD Part002.DEFAULT_COPYRIGHT_INFO.artist)
        (opts.offsetTime.getD DEFAULT_OFFSET_TIME) = Except.error (rem, add, msg)) :
    Part002.cleanupExifFromFile env file opts =
      { success := false, file := some file, originalSize := file.size,
        cleanedSize := file.size, error := some msg,
        removedFields := rem, addedFields := add, convertedFrom := none } := by
  unfold Part002.cleanupExifFromFile
  rw [hH, hJ]
  dsimp only [Bool.not_true, Bool.false_eq_true, if_false]
  rw [he]
  dsimp only
  rw [hrc]
  rfl

theorem Part002.cleanup_eq_cascade_ok (env : Env) (file : JsFile)
    (opts : CleanupOptions) (e : Exif) (m : RedactMid) (newUrl : DataUrl)
    (extra : List String)
    (hH : isHeicFormat file = false) (hJ : isJpegFormat file = true)
    (he : file.content.exif = some e)
    (hrc : redactCore e (opts.copyright.getD Part002.DEFAULT_COPYRIGHT_INFO.copyright)
        (opts.artist.getD Part002.DEFAULT_COPYRIGHT_INFO.artist)
        (opts.offsetTime.getD DEFAULT_OFFSET_TIME) = Except.ok m)
    (hfb : fallbackEncode env.codec file.content
        (tier1Doc m (ifdLookup e.zeroth tagOrientation))
        (tier2Doc m (opts.copyright.getD Part002.DEFAULT_COPYRIGHT_INFO.copyright)
          (opts.artist.getD Part002.DEFAULT_COPYRIGHT_INFO.artist)
          (opts.offsetTime.getD DEFAULT_OFFSET_TIME))
        (tier3Doc (ifdLookup e.zeroth tagOrientation)
          (opts.copyright.getD Part002.DEFAULT_COPYRIGHT_INFO.copyright)
          (opts.artist.getD Part002.DEFAULT_COPYRIGHT_INFO.artist)) =
        CascadeOut.ok newUrl extra) :
    Part002.cleanupExifFromFile env file opts =
      { success := true,
        file := some { name := file.name, type := file.type, content := newUrl,
                       size := env.blobSize newUrl },
        originalSize := file.size, cleanedSize := env.blobSize newUrl,
        error := none, removedFields := m.removed ++ extra,
        addedFields := m.added, convertedFrom := none } := by
  unfold Part002.cleanupExifFromFile
  rw [hH, hJ]
  dsimp only [Bool.not_true, Bool.false_eq_true, if_false]
  rw [he]
  dsimp only
  rw [hrc]
  dsimp only
  rw [hfb]
  rfl

theorem Part002.cleanup_eq_cascade_exhausted (env : Env) (file : JsFile)
    (opts : CleanupOptions) (e : Exif) (m : RedactMid) (m1 : String)
    (hH : isHeicFormat file = false) (hJ : isJpegFormat file = true)
    (he : file.content.exif = some e)
    (hrc : redactCore e (opts.copyright.getD Part002.DEFAULT_COPYRIGHT_INFO.copyright)
        (opts.artist.getD Part002.DEFAULT_COPYRIGHT_INFO.artist)
        (opts.offsetTime.getD DEFAULT_OFFSET_TIME) = Except.ok m)
    (hfb : fallbackEncode env.codec file.content
        (tier1Doc m (ifdLookup e.zeroth tagOrientation))
        (tier2Doc m (opts.copyright.getD Part002.DEFAULT_COPYRIGHT_INFO.copyright)
          (opts.artist.getD Part002.DEFAULT_COPYRIGHT_INFO.artist)
          (opts.offsetTime.getD DEFAULT_OFFSET_TIME))
        (tier3Doc (ifdLookup e.zeroth tagOrientation)
          (opts.copyright.getD Part002.DEFAULT_COPYRIGHT_INFO.copyright)
          (opts.artist.getD Part002.DEFAULT_COPYRIGHT_INFO.artist)) =
        CascadeOut.exhausted m1) :
    Part002.cleanupExifFromFile env file opts =
      { success := true, file := some file, originalSize := file.size,
        cleanedSize := file.size,
        error := some ("EXIF 处理异常，返回原文件: " ++ m1),
        removedFields := m.removed, addedFields := m.added,
        convertedFrom := none } := by
  unfold Part002.cleanupExifFromFile
  rw [hH, hJ]
  dsimp only [Bool.not_true, Bool.false_eq_true, if_false]
  rw [he]
  dsimp only
  rw [hrc]
  dsimp only
  rw [hfb]
  rfl

theorem Scripts.cleanup_eq_ok (env : Env) (file : JsFile)
    (opts : CleanupOptions) (e : Exif) (m : RedactMid) (newUrl : DataUrl)
    (hH : isHeicFormat file = false) (hJ : isJpegFormat file = true)
    (he : file.content.exif = some e)
    (hrc : redactCore e (opts.copyright.getD Scripts.DEFAULT_COPYRIGHT_INFO.copyright)
        (opts.artist.getD Scripts.DEFAULT_COPYRIGHT_INFO.artist)
        (opts.offsetTime.getD DEFAULT_OFFSET_TIME) = Except.ok m)
    (hdi : tryDumpInsert env.codec (Scripts.singlePassDoc m) file.content =
        Except.ok newUrl) :
    Scripts.cleanupExifFromFile env file opts =
      { success := true,
        file := some { name := file.name, type := file.type, content := newUrl,
                       size := env.blobSize newUrl },
        originalSize := file.size, cleanedSize := env.blobSize newUrl,
        error := none, removedFields := m.removed,
        addedFields := m.added, convertedFrom := none } := by
  unfold Scripts.cleanupExifFromFile
  rw [hH, hJ]
  dsimp only [Bool.not_true, Bool.false_eq_true, if_false]
  rw [he]
  dsimp only
  rw [hrc]
  dsimp only
  rw [hdi]
  rfl

theorem Scripts.cleanup_single_eq_redact_error (env : Env) (file : JsFile)
    (opts : CleanupOptions) (e : Exif) (rem add : List String) (msg : String)
    (hH : isHeicFormat file = false) (hJ : isJpegFormat file = true)
    (he : file.content.exif = some e)
    (hrc : redactCore e (opts.copyright.getD Scripts.DEFAULT_COPYRIGHT_INFO.copyright)
        (opts.artist.getD Scripts.DEFAULT_COPYRIGHT_INFO.artist)
        (opts.offsetTime.getD DEFAULT_OFFSET_TIME) = Except.error (rem, add, msg)) :
    Scripts.cleanupExifFromFile env file opts =
      { success := false, file := some file, originalSize := file.size,
        cleanedSize := file.size, error := some msg,
        removedFields := rem, addedFields := add, convertedFrom := none } := by
  unfold Scripts.cleanupExifFromFile
  rw [hH, hJ]
  dsimp only [Bool.not_true, Bool.false_eq_true, if_false]
  rw [he]
  dsimp only
  rw [hrc]
  rfl

/-! ## Miscellaneous helper lemmas -/

theorem cleanKeeps_str (ks : List Nat) (t : Nat) (s : String) :
    cleanKeeps ks t (.str s) = true := by
  by_cases h : t ∈ ks <;> simp [cleanKeeps, validVal, h]

theorem restoreOrientation_lookup_ne (z : IFD) (o : Option JsVal) (t : Nat)
    (ht : t ≠ tagOrientation) :
    ifdLookup (restoreOrientation z o) t = ifdLookup z t := by
  cases o with
  | none => rfl
  | some v =>
    cases v with
    | nullv => rfl
    | str s => exact ifdLookup_set_ne _ _ _ _ ht
    | num n => exact ifdLookup_set_ne _ _ _ _ ht
    | nan => exact ifdLookup_set_ne _ _ _ _ ht
    | inf => exact ifdLookup_set_ne _ _ _ _ ht
    | arr l => exact ifdLookup_set_ne _ _ _ _ ht

theorem tryDumpInsert_happy (c : Codec) (t : Exif) (u : DataUrl)
    (h1 : c.dumpErr t = none) (h2 : c.insertErr t u = none) :
    tryDumpInsert c t u = Except.ok (embedExif t u) := by
  unfold tryDumpInsert
  rw [h1]
  dsimp only
  rw [h2]

theorem fallbackEncode_ok_of_removeOk (c : Codec) (u : DataUrl) (t1 t2 t3 : Exif)
    (hr : c.removeErr u = none) :
    ∃ d ex, fallbackEncode c u t1 t2 t3 = CascadeOut.ok d ex := by
  unfold fallbackEncode tryDumpInsert
  cases h1 : c.dumpErr t1 with
  | none =>
    dsimp only
    cases h2 : c.insertErr t1 u with
    | none => exact ⟨_, _, rfl⟩
    | some m =>
      dsimp only
      cases h3 : c.dumpErr t2 with
      | none =>
        dsimp only
        cases h4 : c.insertErr t2 u with
        | none => exact ⟨_, _, rfl⟩
        | some m2 =>
          rw [hr]
          dsimp only
          cases h5 : c.dumpErr t3 with
          | none =>
            dsimp only
            cases h6 : c.insertErr t3 (stripExif u) with
            | none => exact ⟨_, _, rfl⟩
            | some m3 => exact ⟨_, _, rfl⟩
          | some m3 => exact ⟨_, _, rfl⟩
      | some m2 =>
        rw [hr]
        dsimp only
        cases h5 : c.dumpErr t3 with
        | none =>
          dsimp only
          cases h6 : c.insertErr t3 (stripExif u) with
          | none => exact ⟨_, _, rfl⟩
          | some m3 => exact ⟨_, _, rfl⟩
        | some m3 => exact ⟨_, _, rfl⟩
  | some m1 =>
    dsimp only
    cases h3 : c.dumpErr t2 with
    | none =>
      dsimp only
      cases h4 : c.insertErr t2 u with
      | none => exact ⟨_, _, rfl⟩
      | some m2 =>
        rw [hr]
        dsimp only
        cases h5 : c.dumpErr t3 with
        | none =>
          dsimp only
          cases h6 : c.insertErr t3 (stripExif u) with
          | none => exact ⟨_, _, rfl⟩
          | some m3 => exact ⟨_, _, rfl⟩
        | some m3 => exact ⟨_, _, rfl⟩
    | some m2 =>
      rw [hr]
      dsimp only
      cases h5 : c.dumpErr t3 with
      | none =>
        dsimp only
        cases h6 : c.insertErr t3 (stripExif u) with
        | none => exact ⟨_, _, rfl⟩
        | some m3 => exact ⟨_, _, rfl⟩
      | some m3 => exact ⟨_, _, rfl⟩

/-! ## Validity-preservation lemmas -/

theorem ifdLookup_validVal (l : IFD) (t : Nat) (v : JsVal)
    (hl : ifdLookup l t = some v) (hv : ifdAllValid l = true) : validVal v = true := by
  induction l with
  | nil => simp [ifdLookup] at hl
  | cons kv rest ih =>
    obtain ⟨k, w⟩ := kv
    simp only [ifdAllValid, List.all_cons, Bool.and_eq_true] at hv
    simp only [ifdLookup] at hl
    by_cases hk : k = t
    · rw [if_pos hk] at hl
      cases hl
      exact hv.1
    · rw [if_neg hk] at hl
      exact ih hl (by simpa [ifdAllValid] using hv.2)

theorem ifdAllValid_erase (l : IFD) (t : Nat)
    (h : ifdAllValid l = true) : ifdAllValid (ifdErase l t) = true := by
  induction l with
  | nil => simp [ifdErase, ifdAllValid]
  | cons kv rest ih =>
    obtain ⟨k, w⟩ := kv
    simp only [ifdAllValid, List.all_cons, Bool.and_eq_true] at h
    have ih2 := ih (by simpa [ifdAllValid] using h.2)
    simp only [ifdErase]
    split
    · exact ih2
    · simpa [ifdAllValid, h.1] using ih2

theorem ifdAllValid_set (l : IFD) (t : Nat) (v : JsVal)
    (h : ifdAllValid l = true) (hv : validVal v = true) :
    ifdAllValid (ifdSet l t v) = true := by
  induction l with
  | nil => simpa [ifdSet, ifdAllValid] using hv
  | cons kv rest ih =>
    obtain ⟨k, w⟩ := kv
    simp only [ifdAllValid, List.all_cons, Bool.and_eq_true] at h
    have ih2 := ih (by simpa [ifdAllValid] using h.2)
    simp only [ifdSet]
    split
    · simp only [ifdAllValid, List.all_cons, Bool.and_eq_true]
      refine ⟨hv, ?_⟩
      simpa [ifdAllValid] using h.2
    · simp only [ifdAllValid, List.all_cons, Bool.and_eq_true]
      exact ⟨h.1, by simpa [ifdAllValid] using ih2⟩

theorem ifdAllValid_applyDeletes (spec : List (Nat × EntryStyle)) (l : IFD)
    (rep : List String) (h : ifdAllValid l = true) :
    ifdAllValid (applyDeletes l rep spec).1 = true := by
  induction spec generalizing l rep with
  | nil => simpa [applyDeletes] using h
  | cons p rest ih =>
    obtain ⟨t0, es⟩ := p
    simp only [applyDeletes]
    cases hl : ifdLookup l t0 with
    | none => exact ih l rep h
    | some v => exact ih _ _ (ifdAllValid_erase l t0 h)

theorem dtoStep_allValid (l : IFD) (add : List String) (out : IFD × List String)
    (h : dtoStep l add = Except.ok out) (hv : ifdAllValid l = true) :
    ifdAllValid out.1 = true := by
  unfold dtoStep at h
  cases hl : ifdLookup l tagDateTimeOriginal with
  | none => rw [hl] at h; cases h; exact hv
  | some v =>
    rw [hl] at h
    dsimp only at h
    by_cases hvt : v.truthy
    · rw [if_pos hvt] at h
      cases v with
      | str s =>
        dsimp only at h
        cases hf : formatExifDate s with
        | none => rw [hf] at h; cases h; exact hv
        | some c =>
          rw [hf] at h
          cases h
          exact ifdAllValid_set _ _ _ hv (by simp [validVal])
      | nullv => simp [JsVal.truthy] at hvt
      | num n => dsimp only at h; cases h
      | nan => simp [JsVal.truthy] at hvt
      | inf => dsimp only at h; cases h
      | arr es => dsimp only at h; cases h
    · rw [if_neg hvt] at h
      cases h
      exact hv

theorem dtStep_allValid (l : IFD) (out : IFD)
    (h : dtStep l = Except.ok out) (hv : ifdAllValid l = true) :
    ifdAllValid out = true := by
  unfold dtStep at h
  cases hl : ifdLookup l tagDateTime with
  | none => rw [hl] at h; cases h; exact hv
  | some v =>
    rw [hl] at h
    dsimp only at h
    by_cases hvt : v.truthy
    · rw [if_pos hvt] at h
      cases v with
      | str s =>
        dsimp only at h
        cases hf : formatExifDate s with
        | none => rw [hf] at h; cases h; exact hv
        | some c =>
          rw [hf] at h
          cases h
          exact ifdAllValid_set _ _ _ hv (by simp [validVal])
      | nullv => simp [JsVal.truthy] at hvt
      | num n => dsimp only at h; cases h
      | nan => simp [JsVal.truthy] at hvt
      | inf => dsimp only at h; cases h
      | arr es => dsimp only at h; cases h
    · rw [if_neg hvt] at h
      cases h
      exact hv

theorem redactCore_ok_allValid (e : Exif) (c a o : String) (m : RedactMid)
    (h : redactCore e c a o = Except.ok m) (hv : e.allValid = true) :
    ifdAllValid m.ifd0 = true ∧ ifdAllValid m.exifIfd = true ∧
    ifdAllValid m.gps = true ∧ ifdAllValid m.first = true ∧
    ifdAllValid m.interop = true := by
  simp only [Exif.allValid, Bool.and_eq_true] at hv
  obtain ⟨⟨⟨⟨hz, hx⟩, hg⟩, hf⟩, hi2⟩ := hv
  unfold redactCore at h
  dsimp only at h
  split at h
  · cases h
  · next out heq =>
    split at h
    · cases h
    · next ifd0c heq2 =>
      cases h
      dsimp only
      have hstr : validVal (JsVal.str o) = true := by simp [validVal]
      refine ⟨?_, ?_, ?_, ?_, hi2⟩
      · refine dtStep_allValid _ _ heq2 ?_
        refine ifdAllValid_set _ _ _ ?_ (by simp [validVal])
        refine ifdAllValid_set _ _ _ ?_ (by simp [validVal])
        exact ifdAllValid_applyDeletes _ _ _ hz
      · refine ifdAllValid_set _ _ _ ?_ hstr
        refine ifdAllValid_set _ _ _ ?_ hstr
        refine ifdAllValid_set _ _ _ ?_ hstr
        refine dtoStep_allValid _ _ _ heq ?_
        exact ifdAllValid_applyDeletes _ _ _ hx
      · split
        · exact hg
        · simp [ifdAllValid]
      · split
        · exact hf
        · simp [ifdAllValid]

theorem restoreOrientation_self (z : IFD) (v : JsVal) (hnn : v ≠ JsVal.nullv)
    (hl : ifdLookup z tagOrientation = some v) : restoreOrientation z (some v) = z := by
  cases v with
  | nullv => exact absurd rfl hnn
  | str s => exact ifdSet_of_lookup_eq _ _ _ hl
  | num n => exact ifdSet_of_lookup_eq _ _ _ hl
  | nan => exact ifdSet_of_lookup_eq _ _ _ hl
  | inf => exact ifdSet_of_lookup_eq _ _ _ hl
  | arr l => exact ifdSet_of_lookup_eq _ _ _ hl

theorem tier1Doc_orientation (m : RedactMid) (v : JsVal) (hnn : v ≠ JsVal.nullv) :
    ifdLookup (tier1Doc m (some v)).zeroth tagOrientation = some v := by
  unfold tier1Doc restoreOrientation
  cases v with
  | nullv => exact absurd rfl hnn
  | str s => exact ifdLookup_set_self _ _ _
  | num n => exact ifdLookup_set_self _ _ _
  | nan => exact ifdLookup_set_self _ _ _
  | inf => exact ifdLookup_set_self _ _ _
  | arr l => exact ifdLookup_set_self _ _ _

theorem tier2Doc_orientation (m : RedactMid) (c a o : String) (v : JsVal)
    (hl : ifdLookup m.ifd0 tagOrientation = some v) :
    ifdLookup (tier2Doc m c a o).zeroth tagOrientation = some v := by
  unfold tier2Doc
  dsimp only
  rw [ifdLookup_setIfTruthy_ne _ _ _ _ (by decide),
      ifdLookup_set_ne _ _ _ _ (by decide), ifdLookup_set_ne _ _ _ _ (by decide),
      ifdLookup_setIfSome_ne _ _ _ _ (by decide),
      ifdLookup_setIfSome_ne _ _ _ _ (by decide),
      ifdLookup_setIfSome_ne _ _ _ _ (by decide),
      ifdLookup_setIfSome_ne _ _ _ _ (by decide), hl]
  exact ifdLookup_set_self _ _ _

theorem tier3Doc_orientation (v : JsVal) (hnn : v ≠ JsVal.nullv) (c a : String) :
    ifdLookup (tier3Doc (some v) c a).zeroth tagOrientation = some v := by
  unfold tier3Doc restoreOrientation
  cases v with
  | nullv => exact absurd rfl hnn
  | str s => exact ifdLookup_set_self _ _ _
  | num n => exact ifdLookup_set_self _ _ _
  | nan => exact ifdLookup_set_self _ _ _
  | inf => exact ifdLookup_set_self _ _ _
  | arr l => exact ifdLookup_set_self _ _ _

theorem tier1Doc_eq_singlePass (e : Exif) (c a o : String) (m : RedactMid)
    (h : redactCore e c a o = Except.ok m) (hv : e.allValid = true) :
    tier1Doc m (ifdLookup e.zeroth tagOrientation) = Scripts.singlePassDoc m := by
  obtain ⟨h0, hx, hg, hf, hi2⟩ := redactCore_ok_allValid e c a o m h hv
  have hz : ifdAllValid e.zeroth = true := by
    simp only [Exif.allValid, Bool.and_eq_true] at hv
    exact hv.1.1.1.1
  have hor : ifdLookup m.ifd0 tagOrientation = ifdLookup e.zeroth tagOrientation :=
    (redactCore_ok_ifd0 e c a o m h).1 tagOrientation (by decide)
  unfold tier1Doc Scripts.singlePassDoc
  rw [cleanExifIfd_eq_self _ _ h0, cleanExifIfd_eq_self _ _ hx,
      cleanExifIfd_eq_self _ _ hg, cleanExifIfd_eq_self _ _ hf,
      cleanExifIfd_eq_self _ _ hi2]
  cases ho : ifdLookup e.zeroth tagOrientation with
  | none => rfl
  | some v =>
    have hvv : validVal v = true := ifdLookup_validVal e.zeroth tagOrientation v ho hz
    have hnn : v ≠ JsVal.nullv := by
      intro hh
      rw [hh] at hvv
      simp [validVal] at hvv
    rw [restoreOrientation_self m.ifd0 v hnn (by rw [hor, ho])]

/-! ## Pipeline size lemmas -/

theorem Part002.cleanup_originalSize (env : Env) (file : JsFile) (opts : CleanupOptions) :
    (Part002.cleanupExifFromFile env file opts).originalSize = file.size := by
  unfold Part002.cleanupExifFromFile heicBranch baseResult
  dsimp only
  repeat' split
  all_goals rfl

theorem Part002.cleanup_failed_size (env : Env) (file : JsFile) (opts : CleanupOptions) :
    (Part002.cleanupExifFromFile env file opts).success = false →
    (Part002.cleanupExifFromFile env file opts).cleanedSize = file.size := by
  unfold Part002.cleanupExifFromFile heicBranch baseResult
  dsimp only
  repeat' split
  all_goals intro h
  all_goals first | rfl | (exact absurd h (by simp))

theorem batchAux_spec (env : Env) (opts : CleanupOptions) (total : Nat)
    (files : List JsFile) (i : Nat) :
    (Part002.cleanupExifBatchAux env opts total i files).1.results =
      files.map (fun f => Part002.cleanupExifFromFile env f opts) ∧
    (Part002.cleanupExifBatchAux env opts total i files).1.success =
      (files.map (fun f => Part002.cleanupExifFromFile env f opts)).countP
        (fun r => r.success) ∧
    (Part002.cleanupExifBatchAux env opts total i files).1.failed =
      (files.map (fun f => Part002.cleanupExifFromFile env f opts)).countP
        (fun r => !r.success) ∧
    (Part002.cleanupExifBatchAux env opts total i files).1.totalOriginalSize =
      ((files.map (fun f => Part002.cleanupExifFromFile env f opts)).map
        (fun r => r.originalSize)).sum ∧
    (Part002.cleanupExifBatchAux env opts total i files).1.totalCleanedSize =
      ((files.map (fun f => Part002.cleanupExifFromFile env f opts)).map
        (fun r => r.cleanedSize)).sum ∧
    (Part002.cleanupExifBatchAux env opts total i files).2 =
      progressTrace total i files := by
  induction files generalizing i with
  | nil =>
    refine ⟨rfl, rfl, rfl, rfl, rfl, rfl⟩
  | cons f rest ih =>
    obtain ⟨h1, h2, h3, h4, h5, h6⟩ := ih (i + 1)
    simp only [Part002.cleanupExifBatchAux, List.map_cons, List.countP_cons,
               List.sum_cons, progressTrace]
    refine ⟨?_, ?_, ?_, ?_, ?_, ?_⟩
    · rw [h1]
    · rw [h2]
      by_cases hs : (Part002.cleanupExifFromFile env f opts).success <;>
        simp [hs, Nat.add_comm]
    · rw [h3]
      by_cases hs : (Part002.cleanupExifFromFile env f opts).success <;>
        simp [hs, Nat.add_comm]
    · rw [h4]
    · rw [h5]
    · rw [h6]

theorem progressTrace_items (total : Nat) (files : List JsFile) (i : Nat) :
    (progressTrace total i files).map (fun pc => pc.item) = files := by
  induction files generalizing i with
  | nil => rfl
  | cons f rest ih => simp only [progressTrace, List.map_cons, ih]

theorem progressTrace_totals (total : Nat) (files : List JsFile) (i : Nat)
    (pc : Part002.ProgressCall) (h : pc ∈ progressTrace total i files) :
    pc.total = total := by
  induction files generalizing i with
  | nil => simp [progressTrace] at h
  | cons f rest ih =>
    simp only [progressTrace, List.mem_cons] at h
    rcases h with rfl | h
    · rfl
    · exact ih (i + 1) h

theorem progressTrace_currents (total : Nat) (files : List JsFile) (i : Nat) :
    (progressTrace total i files).map (fun pc => pc.current) =
      (List.range files.length).map (fun k => i + k + 1) := by
  induction files generalizing i with
  | nil => rfl
  | cons f rest ih =>
    simp only [progressTrace, List.map_cons, List.length_cons,
               List.range_succ_eq_map, List.map_map]
    refine congrArg₂ _ rfl ?_
    rw [ih (i + 1)]
    refine List.map_congr_left ?_
    intro k _
    simp only [Function.comp]
    omega

/-! ## Claim theorems -/

/-- C7: for every JPEG input whose tag directory cannot be decoded
(`piexif.load` raises, i.e. the data URL carries no parseable EXIF segment),
`cleanupExifFromFile` returns `success=true` with the output file identical
to the input file, empty removed/added field lists, and an explanatory
note — decode failure is a successful passthrough, never a failure. -/
theorem C7_no_exif_passthrough (env : Env) (file : JsFile) (opts : CleanupOptions)
    (hH : isHeicFormat file = false) (hJ : isJpegFormat file = true)
    (he : file.content.exif = none) :
    (Part002.cleanupExifFromFile env file opts).success = true ∧
    (Part002.cleanupExifFromFile env file opts).file = some file ∧
    (Part002.cleanupExifFromFile env file opts).removedFields = [] ∧
    (Part002.cleanupExifFromFile env file opts).addedFields = [] ∧
    (Part002.cleanupExifFromFile env file opts).error =
      some "无法解析 EXIF 数据，返回原文件" := by
  rw [Part002.cleanup_eq_noexif env file opts hH hJ he]
  exact ⟨rfl, rfl, rfl, rfl, rfl⟩

/-- Witness for C7 at a concrete JPEG with no parseable EXIF segment. -/
theorem C7_no_exif_passthrough_witness :
    isHeicFormat fileNoExif = false ∧ isJpegFormat fileNoExif = true ∧
    fileNoExif.content.exif = none ∧
    ((Part002.cleanupExifFromFile envHappy fileNoExif {}).success = true ∧
     (Part002.cleanupExifFromFile envHappy fileNoExif {}).file = some fileNoExif ∧
     (Part002.cleanupExifFromFile envHappy fileNoExif {}).removedFields = [] ∧
     (Part002.cleanupExifFromFile envHappy fileNoExif {}).addedFields = [] ∧
     (Part002.cleanupExifFromFile envHappy fileNoExif {}).error =
       some "无法解析 EXIF 数据，返回原文件") :=
  ⟨rfl, rfl, rfl, C7_no_exif_passthrough envHappy fileNoExif {} rfl rfl rfl⟩

/-- C10 (confirmed): a HEIC file whose pixel decode raises yields a failure
result (`success=false`, original file returned) whose `removedFields`
already contains the `HEIC/HEIF converted to JPEG` entry pushed before the
conversion was attempted, so the report describes a removal that never
happened to the returned file. -/
theorem C10_heic_error_report :
    isHeicFormat fileHeic = true ∧
    (Part002.cleanupExifFromFile envHappy fileHeic {}).success = false ∧
    (Part002.cleanupExifFromFile envHappy fileHeic {}).file = some fileHeic ∧
    (Part002.cleanupExifFromFile envHappy fileHeic {}).removedFields =
      ["HEIC/HEIF converted to JPEG (all original metadata removed)"] :=
  ⟨rfl, rfl, rfl, rfl⟩

/-- C1 counterexample: with a codec on which every tier raises (`dump` and
`remove` always fail), the returned file is the original, but the success
flag is `true` — the claim's required `success=false` is violated. -/
theorem C1_counterexample :
    (Part002.cleanupExifFromFile envAllFail fileSample {}).file = some fileSample ∧
    (Part002.cleanupExifFromFile envAllFail fileSample {}).success = true :=
  ⟨rfl, rfl⟩

/-- C1 amended: if every fallback tier raises (every `piexif.dump` and every
`piexif.remove` call fails), `cleanupExifFromFile` returns the original
input file unchanged with an error message naming the tier-1 failure — but
with `success=true`: the source deliberately reports this terminal fallback
as a success, not as the failure the claim requires. -/
theorem C1_amended_all_tiers_fail (env : Env) (file : JsFile)
    (opts : CleanupOptions) (e : Exif)
    (hH : isHeicFormat file = false) (hJ : isJpegFormat file = true)
    (he : file.content.exif = some e) (hdf : dateFieldsOk e = true)
    (hd : ∀ x, env.codec.dumpErr x ≠ none)
    (hr : ∀ x, env.codec.removeErr x ≠ none) :
    (Part002.cleanupExifFromFile env file opts).success = true ∧
    (Part002.cleanupExifFromFile env file opts).file = some file ∧
    (Part002.cleanupExifFromFile env file opts).cleanedSize = file.size ∧
    ∃ m1, (Part002.cleanupExifFromFile env file opts).error =
      some ("EXIF 处理异常，返回原文件: " ++ m1) := by
  cases hrc : redactCore e (opts.copyright.getD Part002.DEFAULT_COPYRIGHT_INFO.copyright)
      (opts.artist.getD Part002.DEFAULT_COPYRIGHT_INFO.artist)
      (opts.offsetTime.getD DEFAULT_OFFSET_TIME) with
  | error err =>
    have hfalse := redactCore_error_dateFieldsOk _ _ _ _ err hrc
    rw [hdf] at hfalse
    cases hfalse
  | ok m =>
    obtain ⟨m1, hm1, hfb⟩ := fallbackEncode_exhausted env.codec file.content
      (tier1Doc m (ifdLookup e.zeroth tagOrientation))
      (tier2Doc m (opts.copyright.getD Part002.DEFAULT_COPYRIGHT_INFO.copyright)
        (opts.artist.getD Part002.DEFAULT_COPYRIGHT_INFO.artist)
        (opts.offsetTime.getD DEFAULT_OFFSET_TIME))
      (tier3Doc (ifdLookup e.zeroth tagOrientation)
        (opts.copyright.getD Part002.DEFAULT_COPYRIGHT_INFO.copyright)
        (opts.artist.getD Part002.DEFAULT_COPYRIGHT_INFO.artist)) hd hr
    rw [Part002.cleanup_eq_cascade_exhausted env file opts e m m1 hH hJ he hrc hfb]
    exact ⟨rfl, rfl, rfl, m1, rfl⟩

/-- Witness for the amended C1 at a concrete input and all-failing codec. -/
theorem C1_amended_all_tiers_fail_witness :
    dateFieldsOk sampleExif = true ∧
    ((Part002.cleanupExifFromFile envAllFail fileSample {}).success = true ∧
     (Part002.cleanupExifFromFile envAllFail fileSample {}).file = some fileSample ∧
     (Part002.cleanupExifFromFile envAllFail fileSample {}).cleanedSize =
       fileSample.size ∧
     ∃ m1, (Part002.cleanupExifFromFile envAllFail fileSample {}).error =
       some ("EXIF 处理异常，返回原文件: " ++ m1)) :=
  ⟨rfl, C1_amended_all_tiers_fail envAllFail fileSample {} sampleExif rfl rfl rfl rfl
      (fun _ h => Option.noConfusion h) (fun _ h => Option.noConfusion h)⟩

/-- C2 counterexample: when tiers 1-3 raise and the tier-4 bare strip wins,
the output file carries no EXIF segment at all, so the input's Orientation
value 6 is not present in the cleaned output — the claim's "regardless of
which fallback tier (1, 2, 3, or 4)" fails at tier 4. -/
theorem C2_counterexample :
    (∃ d, fileOrient.content.exif = some d ∧
       ifdLookup d.zeroth tagOrientation = some (.num 6)) ∧
    (Part002.cleanupExifFromFile envTierFour fileOrient {}).success = true ∧
    (Part002.cleanupExifFromFile envTierFour fileOrient {}).file.isSome = true ∧
    outputDoc (Part002.cleanupExifFromFile envTierFour fileOrient {}) = none :=
  ⟨⟨_, rfl, rfl⟩, rfl, rfl, rfl⟩

/-- C2 amended: for every JPEG input whose decoded Primary group has an
Orientation tag with value `v ∈ {1..8}`, whenever the returned file embeds
an EXIF document at all — tiers 1, 2 and 3, as well as every path that
returns the original file — that document's Orientation equals `v`; the
tier-4 bare strip instead returns a file with no EXIF document (covered
vacuously here, exhibited concretely by the counterexample). -/
theorem C2_amended_orientation_preserved (env : Env) (file : JsFile)
    (opts : CleanupOptions) (e : Exif) (v : Int)
    (hH : isHeicFormat file = false) (hJ : isJpegFormat file = true)
    (he : file.content.exif = some e)
    (hv : ifdLookup e.zeroth tagOrientation = some (.num v))
    (_hrange : 1 ≤ v ∧ v ≤ 8) :
    ∀ f d, (Part002.cleanupExifFromFile env file opts).file = some f →
      f.content.exif = some d →
      ifdLookup d.zeroth tagOrientation = some (.num v) := by
  intro f d hf hd
  cases hrc : redactCore e (opts.copyright.getD Part002.DEFAULT_COPYRIGHT_INFO.copyright)
      (opts.artist.getD Part002.DEFAULT_COPYRIGHT_INFO.artist)
      (opts.offsetTime.getD DEFAULT_OFFSET_TIME) with
  | error err =>
    obtain ⟨rem, add, msg⟩ := err
    rw [Part002.cleanup_eq_redact_error env file opts e rem add msg hH hJ he hrc] at hf
    cases hf
    rw [he] at hd
    cases hd
    exact hv
  | ok m =>
    cases hfb : fallbackEncode env.codec file.content
        (tier1Doc m (ifdLookup e.zeroth tagOrientation))
        (tier2Doc m (opts.copyright.getD Part002.DEFAULT_COPYRIGHT_INFO.copyright)
          (opts.artist.getD Part002.DEFAULT_COPYRIGHT_INFO.artist)
          (opts.offsetTime.getD DEFAULT_OFFSET_TIME))
        (tier3Doc (ifdLookup e.zeroth tagOrientation)
          (opts.copyright.getD Part002.DEFAULT_COPYRIGHT_INFO.copyright)
          (opts.artist.getD Part002.DEFAULT_COPYRIGHT_INFO.artist)) with
    | exhausted m1 =>
      rw [Part002.cleanup_eq_cascade_exhausted env file opts e m m1 hH hJ he hrc hfb] at hf
      cases hf
      rw [he] at hd
      cases hd
      exact hv
    | ok newUrl extra =>
      rw [Part002.cleanup_eq_cascade_ok env file opts e m newUrl extra hH hJ he hrc hfb] at hf
      cases hf
      dsimp only at hd
      obtain ⟨hshape, _, _⟩ := fallbackEncode_ok_shape _ _ _ _ _ _ _ hfb
      have hmor : ifdLookup m.ifd0 tagOrientation = some (.num v) := by
        rw [(redactCore_ok_ifd0 _ _ _ _ _ hrc).1 tagOrientation (by decide)]
        exact hv
      rcases hshape with h1 | h2 | h3 | h4
      · rw [hd] at h1
        cases h1
        rw [hv]
        exact tier1Doc_orientation m (.num v) (by intro hh; cases hh)
      · rw [hd] at h2
        cases h2
        exact tier2Doc_orientation m _ _ _ (.num v) hmor
      · rw [hd] at h3
        cases h3
        rw [hv]
        exact tier3Doc_orientation (.num v) (by intro hh; cases hh) _ _
      · rw [hd] at h4
        cases h4

/-- Witness for the amended C2: a happy-path (tier-1) run preserving
orientation 6. -/
theorem C2_amended_orientation_preserved_witness :
    (∃ d0, fileOrient.content.exif = some d0 ∧
       ifdLookup d0.zeroth tagOrientation = some (.num 6)) ∧
    (∀ f d, (Part002.cleanupExifFromFile envHappy fileOrient {}).file = some f →
      f.content.exif = some d →
      ifdLookup d.zeroth tagOrientation = some (.num 6)) :=
  ⟨⟨_, rfl, rfl⟩,
   C2_amended_orientation_preserved envHappy fileOrient {} _ 6 rfl rfl rfl rfl
     ⟨by decide, by decide⟩⟩

/-- C3 counterexample: for an input whose `DateTimeOriginal` is the
malformed string `not-a-date` (the claim's own example), the tier-1 cleaned
output still carries the tag with the unredacted original string — the tag
is not absent as the claim requires. -/
theorem C3_counterexample :
    (∃ d, fileBadDate.content.exif = some d ∧
       ifdLookup d.exifIfd tagDateTimeOriginal = some (.str "not-a-date")) ∧
    formatExifDate "not-a-date" = none ∧
    (Part002.cleanupExifFromFile envHappy fileBadDate {}).success = true ∧
    (∃ d2, outputDoc (Part002.cleanupExifFromFile envHappy fileBadDate {}) = some d2 ∧
       ifdLookup d2.exifIfd tagDateTimeOriginal = some (.str "not-a-date")) :=
  ⟨⟨_, rfl, rfl⟩, rfl, rfl, ⟨_, rfl, rfl⟩⟩

/-- C3 amended: on a tier-1 (no codec failure) run, a `DateTimeOriginal`
or `DateTime` value with a well-formed `YYYY:MM:DD` prefix is rewritten to
that date followed by ` 00:00:00`; a value that does not match the
date-prefix shape is left in the output unchanged — retained verbatim, not
absent. -/
theorem C3_amended_timestamp (env : Env) (file : JsFile) (opts : CleanupOptions)
    (e : Exif)
    (hH : isHeicFormat file = false) (hJ : isJpegFormat file = true)
    (he : file.content.exif = some e) (hdf : dateFieldsOk e = true)
    (hd : ∀ x, env.codec.dumpErr x = none)
    (hi : ∀ x u, env.codec.insertErr x u = none) :
    ∃ d, outputDoc (Part002.cleanupExifFromFile env file opts) = some d ∧
      (∀ s, ifdLookup e.exifIfd tagDateTimeOriginal = some (.str s) →
        ifdLookup d.exifIfd tagDateTimeOriginal =
          some (.str ((formatExifDate s).getD s))) ∧
      (∀ s, ifdLookup e.zeroth tagDateTime = some (.str s) →
        ifdLookup d.zeroth tagDateTime =
          some (.str ((formatExifDate s).getD s))) := by
  cases hrc : redactCore e (opts.copyright.getD Part002.DEFAULT_COPYRIGHT_INFO.copyright)
      (opts.artist.getD Part002.DEFAULT_COPYRIGHT_INFO.artist)
      (opts.offsetTime.getD DEFAULT_OFFSET_TIME) with
  | error err =>
    have hfalse := redactCore_error_dateFieldsOk _ _ _ _ err hrc
    rw [hdf] at hfalse
    cases hfalse
  | ok m =>
    have hfb := fallbackEncode_happy env.codec file.content
      (tier1Doc m (ifdLookup e.zeroth tagOrientation))
      (tier2Doc m (opts.copyright.getD Part002.DEFAULT_COPYRIGHT_INFO.copyright)
        (opts.artist.getD Part002.DEFAULT_COPYRIGHT_INFO.artist)
        (opts.offsetTime.getD DEFAULT_OFFSET_TIME))
      (tier3Doc (ifdLookup e.zeroth tagOrientation)
        (opts.copyright.getD Part002.DEFAULT_COPYRIGHT_INFO.copyright)
        (opts.artist.getD Part002.DEFAULT_COPYRIGHT_INFO.artist))
      (hd _) (hi _ _)
    rw [Part002.cleanup_eq_cascade_ok env file opts e m _ _ hH hJ he hrc hfb]
    refine ⟨tier1Doc m (ifdLookup e.zeroth tagOrientation), rfl, ?_, ?_⟩
    · intro s hs
      have hm := (redactCore_ok_exifIfd _ _ _ _ _ hrc).2.2.2.2.2 s hs
      unfold tier1Doc
      dsimp only
      exact cleanExifIfd_lookup_keep _ _ _ _ hm (cleanKeeps_str _ _ _)
    · intro s hs
      have hm := (redactCore_ok_ifd0 _ _ _ _ _ hrc).2.2.2.2 s hs
      unfold tier1Doc
      dsimp only
      rw [restoreOrientation_lookup_ne _ _ _ (by decide)]
      exact cleanExifIfd_lookup_keep _ _ _ _ hm (cleanKeeps_str _ _ _)

/-- Witness for the amended C3: `"2023:05:14 13:45:22"` is rewritten to
`"2023:05:14 00:00:00"` in both date tags on a concrete run. -/
theorem C3_amended_timestamp_witness :
    dateFieldsOk sampleExif = true ∧
    formatExifDate "2023:05:14 13:45:22" = some "2023:05:14 00:00:00" ∧
    (∃ d, outputDoc (Part002.cleanupExifFromFile envHappy fileSample {}) = some d ∧
      (∀ s, ifdLookup sampleExif.exifIfd tagDateTimeOriginal = some (.str s) →
        ifdLookup d.exifIfd tagDateTimeOriginal =
          some (.str ((formatExifDate s).getD s))) ∧
      (∀ s, ifdLookup sampleExif.zeroth tagDateTime = some (.str s) →
        ifdLookup d.zeroth tagDateTime =
          some (.str ((formatExifDate s).getD s)))) :=
  ⟨rfl, rfl,
   C3_amended_timestamp envHappy fileSample {} sampleExif rfl rfl rfl rfl
     (fun _ => rfl) (fun _ _ => rfl)⟩

/-- C4 counterexample: `XPAuthor` is listed in the module's `PRIVACY_TAGS`
Remove set, yet no deletion step touches it: a JPEG whose Primary group
holds a valid `XPAuthor` value retains that tag verbatim in the tier-1
cleaned output. -/
theorem C4_counterexample :
    ("XPAuthor", tagXPAuthor) ∈ PRIVACY_TAGS ∧
    (∃ d, fileXP.content.exif = some d ∧
       ifdLookup d.zeroth tagXPAuthor = some (.str "author-name")) ∧
    (Part002.cleanupExifFromFile envHappy fileXP {}).success = true ∧
    (∃ d2, outputDoc (Part002.cleanupExifFromFile envHappy fileXP {}) = some d2 ∧
       ifdLookup d2.zeroth tagXPAuthor = some (.str "author-name")) :=
  ⟨by decide, ⟨_, rfl, rfl⟩, rfl, ⟨_, rfl, rfl⟩⟩

/-- C4 amended: on a tier-1 run, every Remove-set tag the transform actually
deletes — Make, Model, Software, HostComputer in Primary; MakerNote,
UserComment, ImageUniqueID, CameraOwnerName, BodySerialNumber,
LensSerialNumber, LensMake, LensModel in ExifSub — is absent from the
cleaned output; the OS-specific `XPAuthor`/`XPComment` tags are the
exception: the transform never deletes them (see the counterexample). -/
theorem C4_amended_removal (env : Env) (file : JsFile) (opts : CleanupOptions)
    (e : Exif)
    (hH : isHeicFormat file = false) (hJ : isJpegFormat file = true)
    (he : file.content.exif = some e) (hdf : dateFieldsOk e = true)
    (hd : ∀ x, env.codec.dumpErr x = none)
    (hi : ∀ x u, env.codec.insertErr x u = none) :
    ∃ d, outputDoc (Part002.cleanupExifFromFile env file opts) = some d ∧
      (∀ t, t ∈ ([tagMake, tagModel, tagSoftware, tagHostComputer] : List Nat) →
        ifdLookup d.zeroth t = none) ∧
      (∀ t, t ∈ ([tagMakerNote, tagUserComment, tagImageUniqueID,
                  tagCameraOwnerName, tagBodySerialNumber, tagLensSerialNumber,
                  tagLensMake, tagLensModel] : List Nat) →
        ifdLookup d.exifIfd t = none) := by
  cases hrc : redactCore e (opts.copyright.getD Part002.DEFAULT_COPYRIGHT_INFO.copyright)
      (opts.artist.getD Part002.DEFAULT_COPYRIGHT_INFO.artist)
      (opts.offsetTime.getD DEFAULT_OFFSET_TIME) with
  | error err =>
    have hfalse := redactCore_error_dateFieldsOk _ _ _ _ err hrc
    rw [hdf] at hfalse
    cases hfalse
  | ok m =>
    have hfb := fallbackEncode_happy env.codec file.content
      (tier1Doc m (ifdLookup e.zeroth tagOrientation))
      (tier2Doc m (opts.copyright.getD Part002.DEFAULT_COPYRIGHT_INFO.copyright)
        (opts.artist.getD Part002.DEFAULT_COPYRIGHT_INFO.artist)
        (opts.offsetTime.getD DEFAULT_OFFSET_TIME))
      (tier3Doc (ifdLookup e.zeroth tagOrientation)
        (opts.copyright.getD Part002.DEFAULT_COPYRIGHT_INFO.copyright)
        (opts.artist.getD Part002.DEFAULT_COPYRIGHT_INFO.artist))
      (hd _) (hi _ _)
    rw [Part002.cleanup_eq_cascade_ok env file opts e m _ _ hH hJ he hrc hfb]
    refine ⟨tier1Doc m (ifdLookup e.zeroth tagOrientation), rfl, ?_, ?_⟩
    · intro t ht
      have hm := (redactCore_ok_ifd0 _ _ _ _ _ hrc).2.1 t ht
      unfold tier1Doc
      dsimp only
      have hne : t ≠ tagOrientation := by
        simp only [List.mem_cons, List.not_mem_nil, or_false] at ht
        rcases ht with rfl | rfl | rfl | rfl <;> decide
      rw [restoreOrientation_lookup_ne _ _ _ hne]
      exact cleanExifIfd_lookup_none _ _ _ hm
    · intro t ht
      have hm := (redactCore_ok_exifIfd _ _ _ _ _ hrc).2.1 t (by
        simp only [List.mem_cons, List.not_mem_nil, or_false] at ht ⊢
        tauto)
      unfold tier1Doc
      dsimp only
      exact cleanExifIfd_lookup_none _ _ _ hm

/-- Witness for the amended C4: all twelve deleted Remove-set tags are
absent from a concrete tier-1 output. -/
theorem C4_amended_removal_witness :
    dateFieldsOk sampleExif = true ∧
    (∃ d, outputDoc (Part002.cleanupExifFromFile envHappy fileSample {}) = some d ∧
      (∀ t, t ∈ ([tagMake, tagModel, tagSoftware, tagHostComputer] : List Nat) →
        ifdLookup d.zeroth t = none) ∧
      (∀ t, t ∈ ([tagMakerNote, tagUserComment, tagImageUniqueID,
                  tagCameraOwnerName, tagBodySerialNumber, tagLensSerialNumber,
                  tagLensMake, tagLensModel] : List Nat) →
        ifdLookup d.exifIfd t = none)) :=
  ⟨rfl, C4_amended_removal envHappy fileSample {} sampleExif rfl rfl rfl rfl
     (fun _ => rfl) (fun _ _ => rfl)⟩

/-- C5 (confirmed): for a JPEG whose redaction runs to completion and whose
strip operation is available (so some tier always produces an output), the
report contains the `GPS (entire block)` entry exactly when the decoded GPS
group was non-empty, and whatever EXIF document the returned file embeds
has an empty GPS group. -/
theorem C5_gps_elimination (env : Env) (file : JsFile) (opts : CleanupOptions)
    (e : Exif)
    (hH : isHeicFormat file = false) (hJ : isJpegFormat file = true)
    (he : file.content.exif = some e) (hdf : dateFieldsOk e = true)
    (hr : ∀ x, env.codec.removeErr x = none) :
    ("GPS (entire block)" ∈
        (Part002.cleanupExifFromFile env file opts).removedFields ↔ e.gps ≠ []) ∧
    (∀ d, outputDoc (Part002.cleanupExifFromFile env file opts) = some d →
      d.gps = []) := by
  cases hrc : redactCore e (opts.copyright.getD Part002.DEFAULT_COPYRIGHT_INFO.copyright)
      (opts.artist.getD Part002.DEFAULT_COPYRIGHT_INFO.artist)
      (opts.offsetTime.getD DEFAULT_OFFSET_TIME) with
  | error err =>
    have hfalse := redactCore_error_dateFieldsOk _ _ _ _ err hrc
    rw [hdf] at hfalse
    cases hfalse
  | ok m =>
    obtain ⟨newUrl, extra, hfb⟩ := fallbackEncode_ok_of_removeOk env.codec file.content
      (tier1Doc m (ifdLookup e.zeroth tagOrientation))
      (tier2Doc m (opts.copyright.getD Part002.DEFAULT_COPYRIGHT_INFO.copyright)
        (opts.artist.getD Part002.DEFAULT_COPYRIGHT_INFO.artist)
        (opts.offsetTime.getD DEFAULT_OFFSET_TIME))
      (tier3Doc (ifdLookup e.zeroth tagOrientation)
        (opts.copyright.getD Part002.DEFAULT_COPYRIGHT_INFO.copyright)
        (opts.artist.getD Part002.DEFAULT_COPYRIGHT_INFO.artist))
      (hr _)
    rw [Part002.cleanup_eq_cascade_ok env file opts e m _ _ hH hJ he hrc hfb]
    obtain ⟨hshape, _, hextra⟩ := fallbackEncode_ok_shape _ _ _ _ _ _ _ hfb
    constructor
    · dsimp only
      rw [List.mem_append]
      constructor
      · intro hmem
        rcases hmem with hmem | hmem
        · exact (redactCore_ok_removed_gps _ _ _ _ _ hrc).mp hmem
        · exfalso
          rcases hextra with rfl | rfl | rfl | rfl
          · simp at hmem
          · simp only [List.mem_singleton] at hmem
            exact absurd hmem (by decide)
          · simp only [List.mem_singleton] at hmem
            exact absurd hmem (by decide)
          · simp only [List.mem_singleton] at hmem
            exact absurd hmem (by decide)
      · intro hne
        exact Or.inl ((redactCore_ok_removed_gps _ _ _ _ _ hrc).mpr hne)
    · intro d hd
      dsimp only [outputDoc] at hd
      rcases hshape with h1 | h1 | h1 | h1 <;> rw [h1] at hd
      · cases hd
        show cleanExifIfd m.gps [] = []
        rw [redactCore_ok_gps _ _ _ _ _ hrc]
        rfl
      · cases hd
        rfl
      · cases hd
        rfl
      · cases hd

/-- Witness for C5: a concrete input with a non-empty GPS group. -/
theorem C5_gps_elimination_witness :
    dateFieldsOk sampleExif = true ∧ sampleExif.gps ≠ [] ∧
    (("GPS (entire block)" ∈
        (Part002.cleanupExifFromFile envHappy fileSample {}).removedFields ↔
      sampleExif.gps ≠ []) ∧
     (∀ d, outputDoc (Part002.cleanupExifFromFile envHappy fileSample {}) = some d →
       d.gps = [])) :=
  ⟨rfl, by simp [sampleExif],
   C5_gps_elimination envHappy fileSample {} sampleExif rfl rfl rfl rfl
     (fun _ => rfl)⟩

/-- C6 counterexample: when tiers 1-3 raise and the tier-4 bare strip wins,
the result is reported as a successful redaction (`success=true`) yet the
output file embeds no EXIF document at all — no Copyright, no Artist, and
no offset-time tags, contradicting the claim for successful redactions. -/
theorem C6_counterexample :
    (Part002.cleanupExifFromFile envTierFour fileSample {}).success = true ∧
    (Part002.cleanupExifFromFile envTierFour fileSample {}).file.isSome = true ∧
    outputDoc (Part002.cleanupExifFromFile envTierFour fileSample {}) = none :=
  ⟨rfl, rfl, rfl⟩

/-- C6 amended: on a tier-1 (no codec failure) run, the cleaned output's
Primary Copyright and Artist tags equal the configured (or default)
strings, and all three ExifSub offset-time tags (0x9010, 0x9011, 0x9012)
equal the configured `offsetTime` (default `+00:00`); lossier tiers drop
some or all of these (tier 3 writes no offset tags, tier 4 strips
everything), as the counterexample exhibits. -/
theorem C6_amended_attribution_offsets (env : Env) (file : JsFile)
    (opts : CleanupOptions) (e : Exif)
    (hH : isHeicFormat file = false) (hJ : isJpegFormat file = true)
    (he : file.content.exif = some e) (hdf : dateFieldsOk e = true)
    (hd : ∀ x, env.codec.dumpErr x = none)
    (hi : ∀ x u, env.codec.insertErr x u = none) :
    ∃ d, outputDoc (Part002.cleanupExifFromFile env file opts) = some d ∧
      ifdLookup d.zeroth tagCopyright =
        some (.str (opts.copyright.getD Part002.DEFAULT_COPYRIGHT_INFO.copyright)) ∧
      ifdLookup d.zeroth tagArtist =
        some (.str (opts.artist.getD Part002.DEFAULT_COPYRIGHT_INFO.artist)) ∧
      ifdLookup d.exifIfd tagOffsetTime =
        some (.str (opts.offsetTime.getD DEFAULT_OFFSET_TIME)) ∧
      ifdLookup d.exifIfd tagOffsetTimeOriginal =
        some (.str (opts.offsetTime.getD DEFAULT_OFFSET_TIME)) ∧
      ifdLookup d.exifIfd tagOffsetTimeDigitized =
        some (.str (opts.offsetTime.getD DEFAULT_OFFSET_TIME)) := by
  cases hrc : redactCore e (opts.copyright.getD Part002.DEFAULT_COPYRIGHT_INFO.copyright)
      (opts.artist.getD Part002.DEFAULT_COPYRIGHT_INFO.artist)
      (opts.offsetTime.getD DEFAULT_OFFSET_TIME) with
  | error err =>
    have hfalse := redactCore_error_dateFieldsOk _ _ _ _ err hrc
    rw [hdf] at hfalse
    cases hfalse
  | ok m =>
    have hfb := fallbackEncode_happy env.codec file.content
      (tier1Doc m (ifdLookup e.zeroth tagOrientation))
      (tier2Doc m (opts.copyright.getD Part002.DEFAULT_COPYRIGHT_INFO.copyright)
        (opts.artist.getD Part002.DEFAULT_COPYRIGHT_INFO.artist)
        (opts.offsetTime.getD DEFAULT_OFFSET_TIME))
      (tier3Doc (ifdLookup e.zeroth tagOrientation)
        (opts.copyright.getD Part002.DEFAULT_COPYRIGHT_INFO.copyright)
        (opts.artist.getD Part002.DEFAULT_COPYRIGHT_INFO.artist))
      (hd _) (hi _ _)
    rw [Part002.cleanup_eq_cascade_ok env file opts e m _ _ hH hJ he hrc hfb]
    obtain ⟨hb1, hb2, hcr, har, hdt⟩ := redactCore_ok_ifd0 _ _ _ _ _ hrc
    obtain ⟨hx1, hx2, ho1, ho2, ho3, hx3⟩ := redactCore_ok_exifIfd _ _ _ _ _ hrc
    refine ⟨tier1Doc m (ifdLookup e.zeroth tagOrientation), rfl, ?_, ?_, ?_, ?_, ?_⟩
    · unfold tier1Doc
      dsimp only
      rw [restoreOrientation_lookup_ne _ _ _ (by decide)]
      exact cleanExifIfd_lookup_keep _ _ _ _ hcr (cleanKeeps_str _ _ _)
    · unfold tier1Doc
      dsimp only
      rw [restoreOrientation_lookup_ne _ _ _ (by decide)]
      exact cleanExifIfd_lookup_keep _ _ _ _ har (cleanKeeps_str _ _ _)
    · unfold tier1Doc
      dsimp only
      exact cleanExifIfd_lookup_keep _ _ _ _ ho1 (cleanKeeps_str _ _ _)
    · unfold tier1Doc
      dsimp only
      exact cleanExifIfd_lookup_keep _ _ _ _ ho2 (cleanKeeps_str _ _ _)
    · unfold tier1Doc
      dsimp only
      exact cleanExifIfd_lookup_keep _ _ _ _ ho3 (cleanKeeps_str _ _ _)

/-- Witness for the amended C6 at a concrete input with default options. -/
theorem C6_amended_attribution_offsets_witness :
    dateFieldsOk sampleExif = true ∧
    (∃ d, outputDoc (Part002.cleanupExifFromFile envHappy fileSample {}) = some d ∧
      ifdLookup d.zeroth tagCopyright =
        some (.str (CleanupOptions.copyright {} |>.getD
          Part002.DEFAULT_COPYRIGHT_INFO.copyright)) ∧
      ifdLookup d.zeroth tagArtist =
        some (.str (CleanupOptions.artist {} |>.getD
          Part002.DEFAULT_COPYRIGHT_INFO.artist)) ∧
      ifdLookup d.exifIfd tagOffsetTime =
        some (.str (CleanupOptions.offsetTime {} |>.getD DEFAULT_OFFSET_TIME)) ∧
      ifdLookup d.exifIfd tagOffsetTimeOriginal =
        some (.str (CleanupOptions.offsetTime {} |>.getD DEFAULT_OFFSET_TIME)) ∧
      ifdLookup d.exifIfd tagOffsetTimeDigitized =
        some (.str (CleanupOptions.offsetTime {} |>.getD DEFAULT_OFFSET_TIME))) :=
  ⟨rfl, C6_amended_attribution_offsets envHappy fileSample {} sampleExif rfl rfl rfl rfl
     (fun _ => rfl) (fun _ _ => rfl)⟩

/-- C8 (confirmed): the batch processes the files one at a time in input
order — its per-file results are exactly the map of `cleanupExifFromFile`
over the input list; the progress trace fires once per file, in order,
carrying the 1-based index, the fixed total, and the file itself, before
that file's own result is computed; `success`/`failed` count the per-file
outcomes; `totalCleanedSize` (and `totalOriginalSize`) are the sums of the
per-file sizes; and a failed file contributes exactly its original size. -/
theorem C8_batch_aggregation (env : Env) (files : List JsFile)
    (opts : CleanupOptions) :
    (Part002.cleanupExifBatch env files opts).1.results =
      files.map (fun f => Part002.cleanupExifFromFile env f opts) ∧
    (Part002.cleanupExifBatch env files opts).1.success =
      (files.map (fun f => Part002.cleanupExifFromFile env f opts)).countP
        (fun r => r.success) ∧
    (Part002.cleanupExifBatch env files opts).1.failed =
      (files.map (fun f => Part002.cleanupExifFromFile env f opts)).countP
        (fun r => !r.success) ∧
    (Part002.cleanupExifBatch env files opts).1.totalOriginalSize =
      ((files.map (fun f => Part002.cleanupExifFromFile env f opts)).map
        (fun r => r.originalSize)).sum ∧
    (Part002.cleanupExifBatch env files opts).1.totalCleanedSize =
      ((files.map (fun f => Part002.cleanupExifFromFile env f opts)).map
        (fun r => r.cleanedSize)).sum ∧
    (Part002.cleanupExifBatch env files opts).2 =
      progressTrace files.length 0 files ∧
    ((Part002.cleanupExifBatch env files opts).2.map (fun pc => pc.item) = files) ∧
    (∀ pc, pc ∈ (Part002.cleanupExifBatch env files opts).2 →
      pc.total = files.length) ∧
    ((Part002.cleanupExifBatch env files opts).2.map (fun pc => pc.current) =
      (List.range files.length).map (fun k => k + 1)) ∧
    (∀ r, r ∈ (Part002.cleanupExifBatch env files opts).1.results →
      r.success = false → r.cleanedSize = r.originalSize) := by
  obtain ⟨h1, h2, h3, h4, h5, h6⟩ := batchAux_spec env opts files.length files 0
  refine ⟨h1, h2, h3, h4, h5, h6, ?_, ?_, ?_, ?_⟩
  · rw [Part002.cleanupExifBatch, h6]
    exact progressTrace_items _ _ _
  · intro pc hpc
    rw [Part002.cleanupExifBatch, h6] at hpc
    exact progressTrace_totals _ _ _ pc hpc
  · rw [Part002.cleanupExifBatch, h6, progressTrace_currents]
    refine List.map_congr_left ?_
    intro k _
    omega
  · intro r hr hfail
    rw [Part002.cleanupExifBatch, h1] at hr
    rw [List.mem_map] at hr
    obtain ⟨f, _, rfl⟩ := hr
    rw [Part002.cleanup_originalSize env f opts]
    exact Part002.cleanup_failed_size env f opts hfail

/-- C9 counterexample: with empty options the two variants resolve different
default copyright strings, so for the same input and options the redacted
documents differ in the Primary Copyright tag — they are not the same
document. -/
theorem C9_counterexample :
    ∃ d1 d2,
      outputDoc (Part002.cleanupExifFromFile envHappy fileSample {}) = some d1 ∧
      outputDoc (Scripts.cleanupExifFromFile envHappy fileSample {}) = some d2 ∧
      ifdLookup d1.zeroth tagCopyright =
        some (.str Part002.DEFAULT_COPYRIGHT_INFO.copyright) ∧
      ifdLookup d2.zeroth tagCopyright =
        some (.str Scripts.DEFAULT_COPYRIGHT_INFO.copyright) ∧
      Part002.DEFAULT_COPYRIGHT_INFO.copyright ≠
        Scripts.DEFAULT_COPYRIGHT_INFO.copyright :=
  ⟨_, _, rfl, rfl, rfl, rfl, by decide⟩

/-- C9 amended: when the options specify the copyright string explicitly
(the two variants' *default* copyright strings differ, see the
counterexample) and every tag value of the decoded document is
encoder-valid, a run in which `piexif.dump`/`piexif.insert` never raise
(tier-1 succeeds) gives the same embedded EXIF document in both variants:
with only valid values `cleanExifIfd` is the identity and the orientation
re-injection rewrites the value already present. -/
theorem C9_amended_equivalence (env : Env) (file : JsFile) (opts : CleanupOptions)
    (e : Exif) (c0 : String)
    (hH : isHeicFormat file = false) (hJ : isJpegFormat file = true)
    (he : file.content.exif = some e)
    (hc : opts.copyright = some c0)
    (hv : e.allValid = true)
    (hd : ∀ x, env.codec.dumpErr x = none)
    (hi : ∀ x u, env.codec.insertErr x u = none) :
    ∃ f g, (Part002.cleanupExifFromFile env file opts).file = some f ∧
      (Scripts.cleanupExifFromFile env file opts).file = some g ∧
      f.content.exif = g.content.exif := by
  have hcP : opts.copyright.getD Part002.DEFAULT_COPYRIGHT_INFO.copyright = c0 := by
    rw [hc]; rfl
  have hcS : opts.copyright.getD Scripts.DEFAULT_COPYRIGHT_INFO.copyright = c0 := by
    rw [hc]; rfl
  cases hrc : redactCore e c0 (opts.artist.getD Part002.DEFAULT_COPYRIGHT_INFO.artist)
      (opts.offsetTime.getD DEFAULT_OFFSET_TIME) with
  | error err =>
    obtain ⟨rem, add, msg⟩ := err
    refine ⟨file, file, ?_, ?_, rfl⟩
    · rw [Part002.cleanup_eq_redact_error env file opts e rem add msg hH hJ he
        (by rw [hcP]; exact hrc)]
    · rw [Scripts.cleanup_single_eq_redact_error env file opts e rem add msg hH hJ he
        (by rw [hcS]; exact hrc)]
  | ok m =>
    have hrcP : redactCore e
        (opts.copyright.getD Part002.DEFAULT_COPYRIGHT_INFO.copyright)
        (opts.artist.getD Part002.DEFAULT_COPYRIGHT_INFO.artist)
        (opts.offsetTime.getD DEFAULT_OFFSET_TIME) = Except.ok m := by
      rw [hcP]; exact hrc
    have hrcS : redactCore e
        (opts.copyright.getD Scripts.DEFAULT_COPYRIGHT_INFO.copyright)
        (opts.artist.getD Scripts.DEFAULT_COPYRIGHT_INFO.artist)
        (opts.offsetTime.getD DEFAULT_OFFSET_TIME) = Except.ok m := by
      rw [hcS]; exact hrc
    have hfb := fallbackEncode_happy env.codec file.content
      (tier1Doc m (ifdLookup e.zeroth tagOrientation))
      (tier2Doc m (opts.copyright.getD Part002.DEFAULT_COPYRIGHT_INFO.copyright)
        (opts.artist.getD Part002.DEFAULT_COPYRIGHT_INFO.artist)
        (opts.offsetTime.getD DEFAULT_OFFSET_TIME))
      (tier3Doc (ifdLookup e.zeroth tagOrientation)
        (opts.copyright.getD Part002.DEFAULT_COPYRIGHT_INFO.copyright)
        (opts.artist.getD Part002.DEFAULT_COPYRIGHT_INFO.artist))
      (hd _) (hi _ _)
    have hdi := tryDumpInsert_happy env.codec (Scripts.singlePassDoc m) file.content
      (hd _) (hi _ _)
    rw [Part002.cleanup_eq_cascade_ok env file opts e m _ _ hH hJ he hrcP hfb]
    rw [Scripts.cleanup_eq_ok env file opts e m _ hH hJ he hrcS hdi]
    refine ⟨_, _, rfl, rfl, ?_⟩
    dsimp only [embedExif]
    rw [tier1Doc_eq_singlePass e c0
      (opts.artist.getD Part002.DEFAULT_COPYRIGHT_INFO.artist)
      (opts.offsetTime.getD DEFAULT_OFFSET_TIME) m hrc hv]

/-- Witness for the amended C9 at a concrete valid input with an explicit
copyright option. -/
theorem C9_amended_equivalence_witness :
    sampleValidExif.allValid = true ∧
    (∃ f g, (Part002.cleanupExifFromFile envHappy fileValid
        { copyright := some "C" }).file = some f ∧
      (Scripts.cleanupExifFromFile envHappy fileValid
        { copyright := some "C" }).file = some g ∧
      f.content.exif = g.content.exif) :=
  ⟨rfl, C9_amended_equivalence envHappy fileValid { copyright := some "C" }
     sampleValidExif "C" rfl rfl rfl rfl rfl (fun _ => rfl) (fun _ _ => rfl)⟩

end ExifCleaner

